import Mathlib

/-!
# The mdBook search index `book/searchindex.js`

The source file is one statement,
`Object.assign(window.search, { ... });`, whose second argument is a JSON
object literal: the serialized elasticlunr index of the book.  The literal is
embedded below as a value of `Json`, key by key and in source order, and the
statement as `script`.  The theorems then check the data-consistency
properties of the literal.
-/

/-- JSON values as they occur in the literal.  A number literal is kept as an
exact decimal: `num m s` stands for `m / 10 ^ s`, so `29` is `num 29 0`, `1.0`
is `num 10 1` and `1.4142135623730951` is `num 14142135623730951 16`.  An
object keeps its members in source order. -/
inductive Json where
  | null
  | bool (b : Bool)
  | num (mantissa : Int) (scale : Nat)
  | str (s : String)
  | arr (xs : List Json)
  | obj (kvs : List (String × Json))

namespace Json

/-- The own properties of a value, in order; only objects have any here. -/
def members : Json → List (String × Json)
  | obj kvs => kvs
  | _ => []

/-- The elements of an array. -/
def elements : Json → List Json
  | arr xs => xs
  | _ => []

/-- `Object.keys(j)`. -/
def keys (j : Json) : List String := j.members.map Prod.fst

/-- First binding of `k` in a member list. -/
def lookup (k : String) : List (String × Json) → Option Json
  | [] => none
  | (k1, v) :: rest => if k1 = k then some v else lookup k rest

/-- Property read `j[k]` on an object; `none` stands for `undefined`. -/
def get (j : Json) (k : String) : Option Json := lookup k j.members

/-- Property read that yields `null` where JavaScript yields `undefined`. -/
def field (j : Json) (k : String) : Json := (j.get k).getD null

/-- The exact rational value of a number literal. -/
def toRat? : Json → Option ℚ
  | num m s => some (m / (10 : ℚ) ^ s)
  | _ => none

/-- The contents of a string value. -/
def toStr? : Json → Option String
  | str s => some s
  | _ => none

mutual
/-- No object inside the value binds a key twice, so that reading a property
by its first binding is reading the property. -/
def keysNodup : Json → Bool
  | arr xs => elementsNodup xs
  | obj kvs => decide (kvs.map Prod.fst).Nodup && membersNodup kvs
  | _ => true
/-- The check `keysNodup` on every element of an array. -/
def elementsNodup : List Json → Bool
  | [] => true
  | x :: xs => keysNodup x && elementsNodup xs
/-- The check `keysNodup` on every property value of an object. -/
def membersNodup : List (String × Json) → Bool
  | [] => true
  | (_, v) :: rest => keysNodup v && membersNodup rest
end

end Json

namespace SearchIndex

open Json

/-- The array `doc_urls` of the literal: one page URL per document. -/
def doc_urls : Json :=
  arr [
    str "introduction.html#welcome-to-cairo-academy-jumpstart-your-starknet-development",
    str "introduction.html#why-templates",
    str "introduction.html#what-youll-find",
    str "introduction.html#how-to-use-the-templates",
    str "chapter_1.html#chapter-1",
    str "contribution.html#contributing-templates",
    str "contribution.html#join-the-starknet-ecosystem"]

/-- The object `index.documentStore.docInfo`: per-document word counts. -/
def docInfo : Json :=
  obj [
    ("0", obj [("body", num 29 0), ("breadcrumbs", num 7 0), ("title", num 6 0)]),
    ("1", obj [("body", num 42 0), ("breadcrumbs", num 2 0), ("title", num 1 0)]),
    ("2", obj [("body", num 60 0), ("breadcrumbs", num 3 0), ("title", num 2 0)]),
    ("3", obj [("body", num 37 0), ("breadcrumbs", num 3 0), ("title", num 2 0)]),
    ("4", obj [("body", num 0 0), ("breadcrumbs", num 4 0), ("title", num 2 0)]),
    ("5", obj [("body", num 16 0), ("breadcrumbs", num 3 0), ("title", num 2 0)]),
    ("6", obj [("body", num 21 0), ("breadcrumbs", num 4 0), ("title", num 3 0)])]

/-- The object `index.documentStore.docs`: the stored documents. -/
def docs : Json :=
  obj [
    ("0", obj [("body", str "Leverage Predefined Templates to Build on Starknet Faster Cairo Academy simplifies your journey into Starknet development by providing a collection of ready-to-use templates. These templates are designed to accelerate your learning and development process, allowing you to focus on building innovative decentralized applications."), ("breadcrumbs", str "Introduction » Welcome to Cairo Academy: Jumpstart Your Starknet Development"), ("id", str "0"), ("title", str "Welcome to Cairo Academy: Jumpstart Your Starknet Development")]),
    ("1", obj [("body", str "Rapid Prototyping: Skip the initial setup and dive straight into building your application. Best Practices: Learn from well-structured code and established design patterns. Reduced Learning Curve: Get a head start by utilizing pre-built components and functionalities. Consistency: Maintain code quality and uniformity across your projects. Community Contributions: Benefit from templates created and improved by the Starknet community."), ("breadcrumbs", str "Introduction » Why Templates?"), ("id", str "1"), ("title", str "Why Templates?")]),
    ("2", obj [("body", str "Cairo Academy offers a variety of templates catering to different use cases: Basic Smart Contract Template: A foundational template for deploying simple smart contracts on Starknet. Token Contract Template: A template for creating fungible or non-fungible tokens. DAO Template: A starting point for building decentralized autonomous organizations. Game Template: A template for developing on-chain games with Cairo. DeFi Template: A template for building decentralized finance applications. And more: We are constantly expanding our template library to cover a wide range of applications."), ("breadcrumbs", str "Introduction » What You'll Find"), ("id", str "2"), ("title", str "What You'll Find")]),
    ("3", obj [("body", str "Browse Templates: Explore the available templates and choose one that fits your project requirements. Download/Clone: Download or clone the template repository. Customize: Modify the template code to fit your specific application logic. Deploy: Compile and deploy your customized smart contract on Starknet. Iterate: Build upon the template and add new features."), ("breadcrumbs", str "Introduction » How to Use the Templates"), ("id", str "3"), ("title", str "How to Use the Templates")]),
    ("4", obj [("body", str ""), ("breadcrumbs", str "Chapter 1 » Chapter 1"), ("id", str "4"), ("title", str "Chapter 1")]),
    ("5", obj [("body", str "We encourage the community to contribute new templates and improve existing ones. If you have a template that you think would be valuable to others, please submit a pull request."), ("breadcrumbs", str "Contributions » Contributing Templates"), ("id", str "5"), ("title", str "Contributing Templates")]),
    ("6", obj [("body", str "Cairo Academy's templates are designed to help you quickly become a productive member of the Starknet ecosystem. Start building today and contribute to the future of decentralized applications. Let's build with templates!"), ("breadcrumbs", str "Contributions » Join the Starknet Ecosystem"), ("id", str "6"), ("title", str "Join the Starknet Ecosystem")])]

/-- The object `index.documentStore`. -/
def documentStore : Json :=
  obj [("docInfo", docInfo), ("docs", docs), ("length", num 7 0), ("save", bool true)]

/-- The trie `index.index.body.root`. -/
def body_root : Json :=
  obj [
    ("1", obj [("df", num 1 0), ("docs", obj [("4", obj [("tf", num 10 1)])])]),
    ("a", obj [("c", obj [("a", obj [("d", obj [("df", num 0 0), ("docs", obj []), ("e", obj [("df", num 0 0), ("docs", obj []), ("m", obj [("df", num 0 0), ("docs", obj []), ("i", obj [("df", num 2 0), ("docs", obj [("0", obj [("tf", num 14142135623730951 16)]), ("2", obj [("tf", num 10 1)])])]), ("y", obj [("'", obj [("df", num 1 0), ("docs", obj [("6", obj [("tf", num 10 1)])])]), ("df", num 0 0), ("docs", obj [])])])])]), ("df", num 0 0), ("docs", obj [])]), ("c", obj [("df", num 0 0), ("docs", obj []), ("e", obj [("df", num 0 0), ("docs", obj []), ("l", obj [("df", num 0 0), ("docs", obj []), ("e", obj [("df", num 0 0), ("docs", obj []), ("r", obj [("df", num 1 0), ("docs", obj [("0", obj [("tf", num 10 1)])])])])])])]), ("df", num 0 0), ("docs", obj [])]), ("d", obj [("d", obj [("df", num 1 0), ("docs", obj [("3", obj [("tf", num 10 1)])])]), ("df", num 0 0), ("docs", obj [])]), ("df", num 0 0), ("docs", obj []), ("l", obj [("df", num 0 0), ("docs", obj []), ("l", obj [("df", num 0 0), ("docs", obj []), ("o", obj [("df", num 0 0), ("docs", obj []), ("w", obj [("df", num 1 0), ("docs", obj [("0", obj [("tf", num 10 1)])])])])])]), ("p", obj [("df", num 0 0), ("docs", obj []), ("p", obj [("df", num 0 0), ("docs", obj []), ("l", obj [("df", num 0 0), ("docs", obj []), ("i", obj [("c", obj [("df", num 5 0), ("docs", obj [("0", obj [("tf", num 10 1)]), ("1", obj [("tf", num 10 1)]), ("2", obj [("tf", num 14142135623730951 16)]), ("3", obj [("tf", num 10 1)]), ("6", obj [("tf", num 10 1)])])]), ("df", num 0 0), ("docs", obj [])])])])]), ("u", obj [("df", num 0 0), ("docs", obj []), ("t", obj [("df", num 0 0), ("docs", obj []), ("o", obj [("df", num 0 0), ("docs", obj []), ("n", obj [("df", num 0 0), ("docs", obj []), ("o", obj [("df", num 0 0), ("docs", obj []), ("m", obj [("df", num 1 0), ("docs", obj [("2", obj [("tf", num 10 1)])])])])])])])]), ("v", obj [("a", obj [("df", num 0 0), ("docs", obj []), ("i", obj [("df", num 0 0), ("docs", obj []), ("l", obj [("df", num 1 0), ("docs", obj [("3", obj [("tf", num 10 1)])])])])]), ("df", num 0 0), ("docs", obj [])])]),
    ("b", obj [("a", obj [("df", num 0 0), ("docs", obj []), ("s", obj [("df", num 0 0), ("docs", obj []), ("i", obj [("c", obj [("df", num 1 0), ("docs", obj [("2", obj [("tf", num 10 1)])])]), ("df", num 0 0), ("docs", obj [])])])]), ("df", num 0 0), ("docs", obj []), ("e", obj [("c", obj [("df", num 0 0), ("docs", obj []), ("o", obj [("df", num 0 0), ("docs", obj []), ("m", obj [("df", num 1 0), ("docs", obj [("6", obj [("tf", num 10 1)])])])])]), ("df", num 0 0), ("docs", obj []), ("n", obj [("df", num 0 0), ("docs", obj []), ("e", obj [("df", num 0 0), ("docs", obj []), ("f", obj [("df", num 0 0), ("docs", obj []), ("i", obj [("df", num 0 0), ("docs", obj []), ("t", obj [("df", num 1 0), ("docs", obj [("1", obj [("tf", num 10 1)])])])])])])]), ("s", obj [("df", num 0 0), ("docs", obj []), ("t", obj [("df", num 1 0), ("docs", obj [("1", obj [("tf", num 10 1)])])])])]), ("r", obj [("df", num 0 0), ("docs", obj []), ("o", obj [("df", num 0 0), ("docs", obj []), ("w", obj [("df", num 0 0), ("docs", obj []), ("s", obj [("df", num 1 0), ("docs", obj [("3", obj [("tf", num 10 1)])])])])])]), ("u", obj [("df", num 0 0), ("docs", obj []), ("i", obj [("df", num 0 0), ("docs", obj []), ("l", obj [("d", obj [("df", num 5 0), ("docs", obj [("0", obj [("tf", num 14142135623730951 16)]), ("1", obj [("tf", num 10 1)]), ("2", obj [("tf", num 14142135623730951 16)]), ("3", obj [("tf", num 10 1)]), ("6", obj [("tf", num 14142135623730951 16)])])]), ("df", num 0 0), ("docs", obj []), ("t", obj [("df", num 1 0), ("docs", obj [("1", obj [("tf", num 10 1)])])])])])])]),
    ("c", obj [("a", obj [("df", num 0 0), ("docs", obj []), ("i", obj [("df", num 0 0), ("docs", obj []), ("r", obj [("df", num 0 0), ("docs", obj []), ("o", obj [("df", num 3 0), ("docs", obj [("0", obj [("tf", num 14142135623730951 16)]), ("2", obj [("tf", num 14142135623730951 16)]), ("6", obj [("tf", num 10 1)])])])])]), ("s", obj [("df", num 0 0), ("docs", obj []), ("e", obj [("df", num 1 0), ("docs", obj [("2", obj [("tf", num 10 1)])])])]), ("t", obj [("df", num 0 0), ("docs", obj []), ("e", obj [("df", num 0 0), ("docs", obj []), ("r", obj [("df", num 1 0), ("docs", obj [("2", obj [("tf", num 10 1)])])])])])]), ("df", num 0 0), ("docs", obj []), ("h", obj [("a", obj [("df", num 0 0), ("docs", obj []), ("i", obj [("df", num 0 0), ("docs", obj []), ("n", obj [("df", num 1 0), ("docs", obj [("2", obj [("tf", num 10 1)])])])]), ("p", obj [("df", num 0 0), ("docs", obj []), ("t", obj [("df", num 0 0), ("docs", obj []), ("e", obj [("df", num 0 0), ("docs", obj []), ("r", obj [("df", num 1 0), ("docs", obj [("4", obj [("tf", num 10 1)])])])])])])]), ("df", num 0 0), ("docs", obj []), ("o", obj [("df", num 0 0), ("docs", obj []), ("o", obj [("df", num 0 0), ("docs", obj []), ("s", obj [("df", num 1 0), ("docs", obj [("3", obj [("tf", num 10 1)])])])])])]), ("l", obj [("df", num 0 0), ("docs", obj []), ("o", obj [("df", num 0 0), ("docs", obj []), ("n", obj [("df", num 0 0), ("docs", obj []), ("e", obj [("df", num 1 0), ("docs", obj [("3", obj [("tf", num 10 1)])])])])])]), ("o", obj [("d", obj [("df", num 0 0), ("docs", obj []), ("e", obj [("df", num 2 0), ("docs", obj [("1", obj [("tf", num 14142135623730951 16)]), ("3", obj [("tf", num 10 1)])])])]), ("df", num 0 0), ("docs", obj []), ("l", obj [("df", num 0 0), ("docs", obj []), ("l", obj [("df", num 0 0), ("docs", obj []), ("e", obj [("c", obj [("df", num 0 0), ("docs", obj []), ("t", obj [("df", num 1 0), ("docs", obj [("0", obj [("tf", num 10 1)])])])]), ("df", num 0 0), ("docs", obj [])])])]), ("m", obj [("df", num 0 0), ("docs", obj []), ("m", obj [("df", num 0 0), ("docs", obj []), ("u", obj [("df", num 0 0), ("docs", obj []), ("n", obj [("df", num 2 0), ("docs", obj [("1", obj [("tf", num 14142135623730951 16)]), ("5", obj [("tf", num 10 1)])])])])]), ("p", obj [("df", num 0 0), ("docs", obj []), ("i", obj [("df", num 0 0), ("docs", obj []), ("l", obj [("df", num 1 0), ("docs", obj [("3", obj [("tf", num 10 1)])])])]), ("o", obj [("df", num 0 0), ("docs", obj []), ("n", obj [("df", num 1 0), ("docs", obj [("1", obj [("tf", num 10 1)])])])])])]), ("n", obj [("df", num 0 0), ("docs", obj []), ("s", obj [("df", num 0 0), ("docs", obj []), ("i", obj [("df", num 0 0), ("docs", obj []), ("s", obj [("df", num 0 0), ("docs", obj []), ("t", obj [("df", num 1 0), ("docs", obj [("1", obj [("tf", num 10 1)])])])])]), ("t", obj [("a", obj [("df", num 0 0), ("docs", obj []), ("n", obj [("df", num 0 0), ("docs", obj []), ("t", obj [("df", num 0 0), ("docs", obj []), ("l", obj [("df", num 0 0), ("docs", obj []), ("i", obj [("df", num 1 0), ("docs", obj [("2", obj [("tf", num 10 1)])])])])])])]), ("df", num 0 0), ("docs", obj [])])]), ("t", obj [("df", num 0 0), ("docs", obj []), ("r", obj [("a", obj [("c", obj [("df", num 0 0), ("docs", obj []), ("t", obj [("df", num 2 0), ("docs", obj [("2", obj [("tf", num 17320508075688772 16)]), ("3", obj [("tf", num 10 1)])])])]), ("df", num 0 0), ("docs", obj [])]), ("df", num 0 0), ("docs", obj []), ("i", obj [("b", obj [("df", num 0 0), ("docs", obj []), ("u", obj [("df", num 0 0), ("docs", obj []), ("t", obj [("df", num 3 0), ("docs", obj [("1", obj [("tf", num 10 1)]), ("5", obj [("tf", num 14142135623730951 16)]), ("6", obj [("tf", num 10 1)])])])])]), ("df", num 0 0), ("docs", obj [])])])])]), ("v", obj [("df", num 0 0), ("docs", obj []), ("e", obj [("df", num 0 0), ("docs", obj []), ("r", obj [("df", num 1 0), ("docs", obj [("2", obj [("tf", num 10 1)])])])])])]), ("r", obj [("df", num 0 0), ("docs", obj []), ("e", obj [("a", obj [("df", num 0 0), ("docs", obj []), ("t", obj [("df", num 2 0), ("docs", obj [("1", obj [("tf", num 10 1)]), ("2", obj [("tf", num 10 1)])])])]), ("df", num 0 0), ("docs", obj [])])]), ("u", obj [("df", num 0 0), ("docs", obj []), ("r", obj [("df", num 0 0), ("docs", obj []), ("v", obj [("df", num 1 0), ("docs", obj [("1", obj [("tf", num 10 1)])])])]), ("s", obj [("df", num 0 0), ("docs", obj []), ("t", obj [("df", num 0 0), ("docs", obj []), ("o", obj [("df", num 0 0), ("docs", obj []), ("m", obj [("df", num 1 0), ("docs", obj [("3", obj [("tf", num 14142135623730951 16)])])])])])])])]),
    ("d", obj [("a", obj [("df", num 0 0), ("docs", obj []), ("o", obj [("df", num 1 0), ("docs", obj [("2", obj [("tf", num 10 1)])])])]), ("df", num 0 0), ("docs", obj []), ("e", obj [("c", obj [("df", num 0 0), ("docs", obj []), ("e", obj [("df", num 0 0), ("docs", obj []), ("n", obj [("df", num 0 0), ("docs", obj []), ("t", obj [("df", num 0 0), ("docs", obj []), ("r", obj [("df", num 3 0), ("docs", obj [("0", obj [("tf", num 10 1)]), ("2", obj [("tf", num 14142135623730951 16)]), ("6", obj [("tf", num 10 1)])])])])])])]), ("df", num 0 0), ("docs", obj []), ("f", obj [("df", num 0 0), ("docs", obj []), ("i", obj [("df", num 1 0), ("docs", obj [("2", obj [("tf", num 10 1)])])])]), ("p", obj [("df", num 0 0), ("docs", obj []), ("l", obj [("df", num 0 0), ("docs", obj []), ("o", obj [("df", num 0 0), ("docs", obj []), ("y", obj [("df", num 2 0), ("docs", obj [("2", obj [("tf", num 10 1)]), ("3", obj [("tf", num 14142135623730951 16)])])])])])]), ("s", obj [("df", num 0 0), ("docs", obj []), ("i", obj [("df", num 0 0), ("docs", obj []), ("g", obj [("df", num 0 0), ("docs", obj []), ("n", obj [("df", num 3 0), ("docs", obj [("0", obj [("tf", num 10 1)]), ("1", obj [("tf", num 10 1)]), ("6", obj [("tf", num 10 1)])])])])])]), ("v", obj [("df", num 0 0), ("docs", obj []), ("e", obj [("df", num 0 0), ("docs", obj []), ("l", obj [("df", num 0 0), ("docs", obj []), ("o", obj [("df", num 0 0), ("docs", obj []), ("p", obj [("df", num 2 0), ("docs", obj [("0", obj [("tf", num 17320508075688772 16)]), ("2", obj [("tf", num 10 1)])])])])])])])]), ("i", obj [("df", num 0 0), ("docs", obj []), ("f", obj [("df", num 0 0), ("docs", obj []), ("f", obj [("df", num 0 0), ("docs", obj []), ("e", obj [("df", num 0 0), ("docs", obj []), ("r", obj [("df", num 1 0), ("docs", obj [("2", obj [("tf", num 10 1)])])])])])]), ("v", obj [("df", num 0 0), ("docs", obj []), ("e", obj [("df", num 1 0), ("docs", obj [("1", obj [("tf", num 10 1)])])])])]), ("o", obj [("df", num 0 0), ("docs", obj []), ("w", obj [("df", num 0 0), ("docs", obj []), ("n", obj [("df", num 0 0), ("docs", obj []), ("l", obj [("df", num 0 0), ("docs", obj []), ("o", obj [("a", obj [("d", obj [("/", obj [("c", obj [("df", num 0 0), ("docs", obj []), ("l", obj [("df", num 0 0), ("docs", obj []), ("o", obj [("df", num 0 0), ("docs", obj []), ("n", obj [("df", num 1 0), ("docs", obj [("3", obj [("tf", num 10 1)])])])])])]), ("df", num 0 0), ("docs", obj [])]), ("df", num 1 0), ("docs", obj [("3", obj [("tf", num 10 1)])])]), ("df", num 0 0), ("docs", obj [])]), ("df", num 0 0), ("docs", obj [])])])])])])]),
    ("df", num 0 0),
    ("docs", obj []),
    ("e", obj [("c", obj [("df", num 0 0), ("docs", obj []), ("o", obj [("df", num 0 0), ("docs", obj []), ("s", obj [("df", num 0 0), ("docs", obj []), ("y", obj [("df", num 0 0), ("docs", obj []), ("s", obj [("df", num 0 0), ("docs", obj []), ("t", obj [("df", num 0 0), ("docs", obj []), ("e", obj [("df", num 0 0), ("docs", obj []), ("m", obj [("df", num 1 0), ("docs", obj [("6", obj [("tf", num 14142135623730951 16)])])])])])])])])])]), ("df", num 0 0), ("docs", obj []), ("n", obj [("c", obj [("df", num 0 0), ("docs", obj []), ("o", obj [("df", num 0 0), ("docs", obj []), ("u", obj [("df", num 0 0), ("docs", obj []), ("r", obj [("a", obj [("df", num 0 0), ("docs", obj []), ("g", obj [("df", num 1 0), ("docs", obj [("5", obj [("tf", num 10 1)])])])]), ("df", num 0 0), ("docs", obj [])])])])]), ("df", num 0 0), ("docs", obj [])]), ("s", obj [("df", num 0 0), ("docs", obj []), ("t", obj [("a", obj [("b", obj [("df", num 0 0), ("docs", obj []), ("l", obj [("df", num 0 0), ("docs", obj []), ("i", obj [("df", num 0 0), ("docs", obj []), ("s", obj [("df", num 0 0), ("docs", obj []), ("h", obj [("df", num 1 0), ("docs", obj [("1", obj [("tf", num 10 1)])])])])])])]), ("df", num 0 0), ("docs", obj [])]), ("df", num 0 0), ("docs", obj [])])]), ("x", obj [("df", num 0 0), ("docs", obj []), ("i", obj [("df", num 0 0), ("docs", obj []), ("s", obj [("df", num 0 0), ("docs", obj []), ("t", obj [("df", num 1 0), ("docs", obj [("5", obj [("tf", num 10 1)])])])])]), ("p", obj [("a", obj [("df", num 0 0), ("docs", obj []), ("n", obj [("d", obj [("df", num 1 0), ("docs", obj [("2", obj [("tf", num 10 1)])])]), ("df", num 0 0), ("docs", obj [])])]), ("df", num 0 0), ("docs", obj []), ("l", obj [("df", num 0 0), ("docs", obj []), ("o", obj [("df", num 0 0), ("docs", obj []), ("r", obj [("df", num 1 0), ("docs", obj [("3", obj [("tf", num 10 1)])])])])])])])]),
    ("f", obj [("a", obj [("df", num 0 0), ("docs", obj []), ("s", obj [("df", num 0 0), ("docs", obj []), ("t", obj [("df", num 0 0), ("docs", obj []), ("e", obj [("df", num 0 0), ("docs", obj []), ("r", obj [("df", num 1 0), ("docs", obj [("0", obj [("tf", num 10 1)])])])])])])]), ("df", num 0 0), ("docs", obj []), ("e", obj [("a", obj [("df", num 0 0), ("docs", obj []), ("t", obj [("df", num 0 0), ("docs", obj []), ("u", obj [("df", num 0 0), ("docs", obj []), ("r", obj [("df", num 1 0), ("docs", obj [("3", obj [("tf", num 10 1)])])])])])]), ("df", num 0 0), ("docs", obj [])]), ("i", obj [("df", num 0 0), ("docs", obj []), ("n", obj [("a", obj [("df", num 0 0), ("docs", obj []), ("n", obj [("c", obj [("df", num 1 0), ("docs", obj [("2", obj [("tf", num 10 1)])])]), ("df", num 0 0), ("docs", obj [])])]), ("d", obj [("df", num 1 0), ("docs", obj [("2", obj [("tf", num 10 1)])])]), ("df", num 0 0), ("docs", obj [])]), ("t", obj [("df", num 1 0), ("docs", obj [("3", obj [("tf", num 14142135623730951 16)])])])]), ("o", obj [("c", obj [("df", num 0 0), ("docs", obj []), ("u", obj [("df", num 1 0), ("docs", obj [("0", obj [("tf", num 10 1)])])])]), ("df", num 0 0), ("docs", obj []), ("u", obj [("df", num 0 0), ("docs", obj []), ("n", obj [("d", obj [("a", obj [("df", num 0 0), ("docs", obj []), ("t", obj [("df", num 1 0), ("docs", obj [("2", obj [("tf", num 10 1)])])])]), ("df", num 0 0), ("docs", obj [])]), ("df", num 0 0), ("docs", obj [])])])]), ("u", obj [("df", num 0 0), ("docs", obj []), ("n", obj [("c", obj [("df", num 0 0), ("docs", obj []), ("t", obj [("df", num 0 0), ("docs", obj []), ("i", obj [("df", num 0 0), ("docs", obj []), ("o", obj [("df", num 0 0), ("docs", obj []), ("n", obj [("df", num 1 0), ("docs", obj [("1", obj [("tf", num 10 1)])])])])])])]), ("df", num 0 0), ("docs", obj []), ("g", obj [("df", num 0 0), ("docs", obj []), ("i", obj [("b", obj [("df", num 0 0), ("docs", obj []), ("l", obj [("df", num 1 0), ("docs", obj [("2", obj [("tf", num 14142135623730951 16)])])])]), ("df", num 0 0), ("docs", obj [])])])]), ("t", obj [("df", num 0 0), ("docs", obj []), ("u", obj [("df", num 0 0), ("docs", obj []), ("r", obj [("df", num 1 0), ("docs", obj [("6", obj [("tf", num 10 1)])])])])])])]),
    ("g", obj [("a", obj [("df", num 0 0), ("docs", obj []), ("m", obj [("df", num 0 0), ("docs", obj []), ("e", obj [("df", num 1 0), ("docs", obj [("2", obj [("tf", num 14142135623730951 16)])])])])]), ("df", num 0 0), ("docs", obj [])]),
    ("h", obj [("df", num 0 0), ("docs", obj []), ("e", obj [("a", obj [("d", obj [("df", num 1 0), ("docs", obj [("1", obj [("tf", num 10 1)])])]), ("df", num 0 0), ("docs", obj [])]), ("df", num 0 0), ("docs", obj []), ("l", obj [("df", num 0 0), ("docs", obj []), ("p", obj [("df", num 1 0), ("docs", obj [("6", obj [("tf", num 10 1)])])])])])]),
    ("i", obj [("df", num 0 0), ("docs", obj []), ("m", obj [("df", num 0 0), ("docs", obj []), ("p", obj [("df", num 0 0), ("docs", obj []), ("r", obj [("df", num 0 0), ("docs", obj []), ("o", obj [("df", num 0 0), ("docs", obj []), ("v", obj [("df", num 2 0), ("docs", obj [("1", obj [("tf", num 10 1)]), ("5", obj [("tf", num 10 1)])])])])])])]), ("n", obj [("df", num 0 0), ("docs", obj []), ("i", obj [("df", num 0 0), ("docs", obj []), ("t", obj [("df", num 0 0), ("docs", obj []), ("i", obj [("df", num 1 0), ("docs", obj [("1", obj [("tf", num 10 1)])])])])]), ("n", obj [("df", num 0 0), ("docs", obj []), ("o", obj [("df", num 0 0), ("docs", obj []), ("v", obj [("df", num 1 0), ("docs", obj [("0", obj [("tf", num 10 1)])])])])])]), ("t", obj [("df", num 0 0), ("docs", obj []), ("e", obj [("df", num 0 0), ("docs", obj []), ("r", obj [("df", num 1 0), ("docs", obj [("3", obj [("tf", num 10 1)])])])])])]),
    ("j", obj [("df", num 0 0), ("docs", obj []), ("o", obj [("df", num 0 0), ("docs", obj []), ("i", obj [("df", num 0 0), ("docs", obj []), ("n", obj [("df", num 1 0), ("docs", obj [("6", obj [("tf", num 10 1)])])])]), ("u", obj [("df", num 0 0), ("docs", obj []), ("r", obj [("df", num 0 0), ("docs", obj []), ("n", obj [("df", num 0 0), ("docs", obj []), ("e", obj [("df", num 0 0), ("docs", obj []), ("y", obj [("df", num 1 0), ("docs", obj [("0", obj [("tf", num 10 1)])])])])])])])]), ("u", obj [("df", num 0 0), ("docs", obj []), ("m", obj [("df", num 0 0), ("docs", obj []), ("p", obj [("df", num 0 0), ("docs", obj []), ("s", obj [("df", num 0 0), ("docs", obj []), ("t", obj [("a", obj [("df", num 0 0), ("docs", obj []), ("r", obj [("df", num 0 0), ("docs", obj []), ("t", obj [("df", num 1 0), ("docs", obj [("0", obj [("tf", num 10 1)])])])])]), ("df", num 0 0), ("docs", obj [])])])])])])]),
    ("l", obj [("df", num 0 0), ("docs", obj []), ("e", obj [("a", obj [("df", num 0 0), ("docs", obj []), ("r", obj [("df", num 0 0), ("docs", obj []), ("n", obj [("df", num 2 0), ("docs", obj [("0", obj [("tf", num 10 1)]), ("1", obj [("tf", num 14142135623730951 16)])])])])]), ("df", num 0 0), ("docs", obj []), ("t", obj [("'", obj [("df", num 1 0), ("docs", obj [("6", obj [("tf", num 10 1)])])]), ("df", num 0 0), ("docs", obj [])]), ("v", obj [("df", num 0 0), ("docs", obj []), ("e", obj [("df", num 0 0), ("docs", obj []), ("r", obj [("a", obj [("df", num 0 0), ("docs", obj []), ("g", obj [("df", num 1 0), ("docs", obj [("0", obj [("tf", num 10 1)])])])]), ("df", num 0 0), ("docs", obj [])])])])]), ("i", obj [("b", obj [("df", num 0 0), ("docs", obj []), ("r", obj [("a", obj [("df", num 0 0), ("docs", obj []), ("r", obj [("df", num 0 0), ("docs", obj []), ("i", obj [("df", num 1 0), ("docs", obj [("2", obj [("tf", num 10 1)])])])])]), ("df", num 0 0), ("docs", obj [])])]), ("df", num 0 0), ("docs", obj [])]), ("o", obj [("df", num 0 0), ("docs", obj []), ("g", obj [("df", num 0 0), ("docs", obj []), ("i", obj [("c", obj [("df", num 1 0), ("docs", obj [("3", obj [("tf", num 10 1)])])]), ("df", num 0 0), ("docs", obj [])])])])]),
    ("m", obj [("a", obj [("df", num 0 0), ("docs", obj []), ("i", obj [("df", num 0 0), ("docs", obj []), ("n", obj [("df", num 0 0), ("docs", obj []), ("t", obj [("a", obj [("df", num 0 0), ("docs", obj []), ("i", obj [("df", num 0 0), ("docs", obj []), ("n", obj [("df", num 1 0), ("docs", obj [("1", obj [("tf", num 10 1)])])])])]), ("df", num 0 0), ("docs", obj [])])])])]), ("df", num 0 0), ("docs", obj []), ("e", obj [("df", num 0 0), ("docs", obj []), ("m", obj [("b", obj [("df", num 0 0), ("docs", obj []), ("e", obj [("df", num 0 0), ("docs", obj []), ("r", obj [("df", num 1 0), ("docs", obj [("6", obj [("tf", num 10 1)])])])])]), ("df", num 0 0), ("docs", obj [])])]), ("o", obj [("d", obj [("df", num 0 0), ("docs", obj []), ("i", obj [("df", num 0 0), ("docs", obj []), ("f", obj [("df", num 0 0), ("docs", obj []), ("i", obj [("df", num 1 0), ("docs", obj [("3", obj [("tf", num 10 1)])])])])])]), ("df", num 0 0), ("docs", obj []), ("r", obj [("df", num 0 0), ("docs", obj []), ("e", obj [("df", num 1 0), ("docs", obj [("2", obj [("tf", num 10 1)])])])])])]),
    ("n", obj [("df", num 0 0), ("docs", obj []), ("e", obj [("df", num 0 0), ("docs", obj []), ("w", obj [("df", num 2 0), ("docs", obj [("3", obj [("tf", num 10 1)]), ("5", obj [("tf", num 10 1)])])])]), ("o", obj [("df", num 0 0), ("docs", obj []), ("n", obj [("df", num 1 0), ("docs", obj [("2", obj [("tf", num 10 1)])])])])]),
    ("o", obj [("df", num 0 0), ("docs", obj []), ("f", obj [("df", num 0 0), ("docs", obj []), ("f", obj [("df", num 0 0), ("docs", obj []), ("e", obj [("df", num 0 0), ("docs", obj []), ("r", obj [("df", num 1 0), ("docs", obj [("2", obj [("tf", num 10 1)])])])])])]), ("n", obj [("df", num 2 0), ("docs", obj [("3", obj [("tf", num 10 1)]), ("5", obj [("tf", num 10 1)])])]), ("r", obj [("df", num 0 0), ("docs", obj []), ("g", obj [("a", obj [("df", num 0 0), ("docs", obj []), ("n", obj [("df", num 1 0), ("docs", obj [("2", obj [("tf", num 10 1)])])])]), ("df", num 0 0), ("docs", obj [])])]), ("t", obj [("df", num 0 0), ("docs", obj []), ("h", obj [("df", num 0 0), ("docs", obj []), ("e", obj [("df", num 0 0), ("docs", obj []), ("r", obj [("df", num 1 0), ("docs", obj [("5", obj [("tf", num 10 1)])])])])])])]),
    ("p", obj [("a", obj [("df", num 0 0), ("docs", obj []), ("t", obj [("df", num 0 0), ("docs", obj []), ("t", obj [("df", num 0 0), ("docs", obj []), ("e", obj [("df", num 0 0), ("docs", obj []), ("r", obj [("df", num 0 0), ("docs", obj []), ("n", obj [("df", num 1 0), ("docs", obj [("1", obj [("tf", num 10 1)])])])])])])])]), ("df", num 0 0), ("docs", obj []), ("l", obj [("df", num 0 0), ("docs", obj []), ("e", obj [("a", obj [("df", num 0 0), ("docs", obj []), ("s", obj [("df", num 1 0), ("docs", obj [("5", obj [("tf", num 10 1)])])])]), ("df", num 0 0), ("docs", obj [])])]), ("o", obj [("df", num 0 0), ("docs", obj []), ("i", obj [("df", num 0 0), ("docs", obj []), ("n", obj [("df", num 0 0), ("docs", obj []), ("t", obj [("df", num 1 0), ("docs", obj [("2", obj [("tf", num 10 1)])])])])])]), ("r", obj [("a", obj [("c", obj [("df", num 0 0), ("docs", obj []), ("t", obj [("df", num 0 0), ("docs", obj []), ("i", obj [("c", obj [("df", num 1 0), ("docs", obj [("1", obj [("tf", num 10 1)])])]), ("df", num 0 0), ("docs", obj [])])])]), ("df", num 0 0), ("docs", obj [])]), ("df", num 0 0), ("docs", obj []), ("e", obj [("d", obj [("df", num 0 0), ("docs", obj []), ("e", obj [("df", num 0 0), ("docs", obj []), ("f", obj [("df", num 0 0), ("docs", obj []), ("i", obj [("df", num 0 0), ("docs", obj []), ("n", obj [("df", num 1 0), ("docs", obj [("0", obj [("tf", num 10 1)])])])])])])]), ("df", num 1 0), ("docs", obj [("1", obj [("tf", num 10 1)])])]), ("o", obj [("c", obj [("df", num 0 0), ("docs", obj []), ("e", obj [("df", num 0 0), ("docs", obj []), ("s", obj [("df", num 0 0), ("docs", obj []), ("s", obj [("df", num 1 0), ("docs", obj [("0", obj [("tf", num 10 1)])])])])])]), ("d", obj [("df", num 0 0), ("docs", obj []), ("u", obj [("c", obj [("df", num 0 0), ("docs", obj []), ("t", obj [("df", num 1 0), ("docs", obj [("6", obj [("tf", num 10 1)])])])]), ("df", num 0 0), ("docs", obj [])])]), ("df", num 0 0), ("docs", obj []), ("j", obj [("df", num 0 0), ("docs", obj []), ("e", obj [("c", obj [("df", num 0 0), ("docs", obj []), ("t", obj [("df", num 2 0), ("docs", obj [("1", obj [("tf", num 10 1)]), ("3", obj [("tf", num 10 1)])])])]), ("df", num 0 0), ("docs", obj [])])]), ("t", obj [("df", num 0 0), ("docs", obj []), ("o", obj [("df", num 0 0), ("docs", obj []), ("t", obj [("df", num 0 0), ("docs", obj []), ("y", obj [("df", num 0 0), ("docs", obj []), ("p", obj [("df", num 1 0), ("docs", obj [("1", obj [("tf", num 10 1)])])])])])])]), ("v", obj [("df", num 0 0), ("docs", obj []), ("i", obj [("d", obj [("df", num 1 0), ("docs", obj [("0", obj [("tf", num 10 1)])])]), ("df", num 0 0), ("docs", obj [])])])])]), ("u", obj [("df", num 0 0), ("docs", obj []), ("l", obj [("df", num 0 0), ("docs", obj []), ("l", obj [("df", num 1 0), ("docs", obj [("5", obj [("tf", num 10 1)])])])])])]),
    ("q", obj [("df", num 0 0), ("docs", obj []), ("u", obj [("a", obj [("df", num 0 0), ("docs", obj []), ("l", obj [("df", num 0 0), ("docs", obj []), ("i", obj [("df", num 0 0), ("docs", obj []), ("t", obj [("df", num 0 0), ("docs", obj []), ("i", obj [("df", num 1 0), ("docs", obj [("1", obj [("tf", num 10 1)])])])])])])]), ("df", num 0 0), ("docs", obj []), ("i", obj [("c", obj [("df", num 0 0), ("docs", obj []), ("k", obj [("df", num 0 0), ("docs", obj []), ("l", obj [("df", num 0 0), ("docs", obj []), ("i", obj [("df", num 1 0), ("docs", obj [("6", obj [("tf", num 10 1)])])])])])]), ("df", num 0 0), ("docs", obj [])])])]),
    ("r", obj [("a", obj [("df", num 0 0), ("docs", obj []), ("n", obj [("df", num 0 0), ("docs", obj []), ("g", obj [("df", num 1 0), ("docs", obj [("2", obj [("tf", num 10 1)])])])]), ("p", obj [("df", num 0 0), ("docs", obj []), ("i", obj [("d", obj [("df", num 1 0), ("docs", obj [("1", obj [("tf", num 10 1)])])]), ("df", num 0 0), ("docs", obj [])])])]), ("df", num 0 0), ("docs", obj []), ("e", obj [("a", obj [("d", obj [("df", num 0 0), ("docs", obj []), ("i", obj [("df", num 1 0), ("docs", obj [("0", obj [("tf", num 10 1)])])])]), ("df", num 0 0), ("docs", obj [])]), ("d", obj [("df", num 0 0), ("docs", obj []), ("u", obj [("c", obj [("df", num 1 0), ("docs", obj [("1", obj [("tf", num 10 1)])])]), ("df", num 0 0), ("docs", obj [])])]), ("df", num 0 0), ("docs", obj []), ("p", obj [("df", num 0 0), ("docs", obj []), ("o", obj [("df", num 0 0), ("docs", obj []), ("s", obj [("df", num 0 0), ("docs", obj []), ("i", obj [("df", num 0 0), ("docs", obj []), ("t", obj [("df", num 0 0), ("docs", obj []), ("o", obj [("df", num 0 0), ("docs", obj []), ("r", obj [("df", num 0 0), ("docs", obj []), ("i", obj [("df", num 1 0), ("docs", obj [("3", obj [("tf", num 10 1)])])])])])])])])])]), ("q", obj [("df", num 0 0), ("docs", obj []), ("u", obj [("df", num 0 0), ("docs", obj []), ("e", obj [("df", num 0 0), ("docs", obj []), ("s", obj [("df", num 0 0), ("docs", obj []), ("t", obj [("df", num 1 0), ("docs", obj [("5", obj [("tf", num 10 1)])])])])]), ("i", obj [("df", num 0 0), ("docs", obj []), ("r", obj [("df", num 1 0), ("docs", obj [("3", obj [("tf", num 10 1)])])])])])])])]),
    ("s", obj [("df", num 0 0), ("docs", obj []), ("e", obj [("df", num 0 0), ("docs", obj []), ("t", obj [("df", num 0 0), ("docs", obj []), ("u", obj [("df", num 0 0), ("docs", obj []), ("p", obj [("df", num 1 0), ("docs", obj [("1", obj [("tf", num 10 1)])])])])])]), ("i", obj [("df", num 0 0), ("docs", obj []), ("m", obj [("df", num 0 0), ("docs", obj []), ("p", obj [("df", num 0 0), ("docs", obj []), ("l", obj [("df", num 1 0), ("docs", obj [("2", obj [("tf", num 10 1)])]), ("i", obj [("df", num 0 0), ("docs", obj []), ("f", obj [("df", num 0 0), ("docs", obj []), ("i", obj [("df", num 1 0), ("docs", obj [("0", obj [("tf", num 10 1)])])])])])])])])]), ("k", obj [("df", num 0 0), ("docs", obj []), ("i", obj [("df", num 0 0), ("docs", obj []), ("p", obj [("df", num 1 0), ("docs", obj [("1", obj [("tf", num 10 1)])])])])]), ("m", obj [("a", obj [("df", num 0 0), ("docs", obj []), ("r", obj [("df", num 0 0), ("docs", obj []), ("t", obj [("df", num 2 0), ("docs", obj [("2", obj [("tf", num 14142135623730951 16)]), ("3", obj [("tf", num 10 1)])])])])]), ("df", num 0 0), ("docs", obj [])]), ("p", obj [("df", num 0 0), ("docs", obj []), ("e", obj [("c", obj [("df", num 0 0), ("docs", obj []), ("i", obj [("df", num 0 0), ("docs", obj []), ("f", obj [("df", num 1 0), ("docs", obj [("3", obj [("tf", num 10 1)])])])])]), ("df", num 0 0), ("docs", obj [])])]), ("t", obj [("a", obj [("df", num 0 0), ("docs", obj []), ("r", obj [("df", num 0 0), ("docs", obj []), ("k", obj [("df", num 0 0), ("docs", obj []), ("n", obj [("df", num 0 0), ("docs", obj []), ("e", obj [("df", num 0 0), ("docs", obj []), ("t", obj [("df", num 5 0), ("docs", obj [("0", obj [("tf", num 17320508075688772 16)]), ("1", obj [("tf", num 10 1)]), ("2", obj [("tf", num 10 1)]), ("3", obj [("tf", num 10 1)]), ("6", obj [("tf", num 14142135623730951 16)])])])])])]), ("t", obj [("df", num 3 0), ("docs", obj [("1", obj [("tf", num 10 1)]), ("2", obj [("tf", num 10 1)]), ("6", obj [("tf", num 10 1)])])])])]), ("df", num 0 0), ("docs", obj []), ("r", obj [("a", obj [("df", num 0 0), ("docs", obj []), ("i", obj [("df", num 0 0), ("docs", obj []), ("g", obj [("df", num 0 0), ("docs", obj []), ("h", obj [("df", num 0 0), ("docs", obj []), ("t", obj [("df", num 1 0), ("docs", obj [("1", obj [("tf", num 10 1)])])])])])])]), ("df", num 0 0), ("docs", obj []), ("u", obj [("c", obj [("df", num 0 0), ("docs", obj []), ("t", obj [("df", num 0 0), ("docs", obj []), ("u", obj [("df", num 0 0), ("docs", obj []), ("r", obj [("df", num 1 0), ("docs", obj [("1", obj [("tf", num 10 1)])])])])])]), ("df", num 0 0), ("docs", obj [])])])]), ("u", obj [("b", obj [("df", num 0 0), ("docs", obj []), ("m", obj [("df", num 0 0), ("docs", obj []), ("i", obj [("df", num 0 0), ("docs", obj []), ("t", obj [("df", num 1 0), ("docs", obj [("5", obj [("tf", num 10 1)])])])])])]), ("df", num 0 0), ("docs", obj [])])]),
    ("t", obj [("df", num 0 0), ("docs", obj []), ("e", obj [("df", num 0 0), ("docs", obj []), ("m", obj [("df", num 0 0), ("docs", obj []), ("p", obj [("df", num 0 0), ("docs", obj []), ("l", obj [("a", obj [("df", num 0 0), ("docs", obj []), ("t", obj [("df", num 6 0), ("docs", obj [("0", obj [("tf", num 17320508075688772 16)]), ("1", obj [("tf", num 14142135623730951 16)]), ("2", obj [("tf", num 33166247903554 13)]), ("3", obj [("tf", num 2449489742783178 15)]), ("5", obj [("tf", num 17320508075688772 16)]), ("6", obj [("tf", num 14142135623730951 16)])])])]), ("df", num 0 0), ("docs", obj [])])])])]), ("h", obj [("df", num 0 0), ("docs", obj []), ("i", obj [("df", num 0 0), ("docs", obj []), ("n", obj [("df", num 0 0), ("docs", obj []), ("k", obj [("df", num 1 0), ("docs", obj [("5", obj [("tf", num 10 1)])])])])])]), ("o", obj [("d", obj [("a", obj [("df", num 0 0), ("docs", obj []), ("y", obj [("df", num 1 0), ("docs", obj [("6", obj [("tf", num 10 1)])])])]), ("df", num 0 0), ("docs", obj [])]), ("df", num 0 0), ("docs", obj []), ("k", obj [("df", num 0 0), ("docs", obj []), ("e", obj [("df", num 0 0), ("docs", obj []), ("n", obj [("df", num 1 0), ("docs", obj [("2", obj [("tf", num 14142135623730951 16)])])])])])])]),
    ("u", obj [("df", num 0 0), ("docs", obj []), ("n", obj [("df", num 0 0), ("docs", obj []), ("i", obj [("df", num 0 0), ("docs", obj []), ("f", obj [("df", num 0 0), ("docs", obj []), ("o", obj [("df", num 0 0), ("docs", obj []), ("r", obj [("df", num 0 0), ("docs", obj []), ("m", obj [("df", num 1 0), ("docs", obj [("1", obj [("tf", num 10 1)])])])])])])])]), ("p", obj [("df", num 0 0), ("docs", obj []), ("o", obj [("df", num 0 0), ("docs", obj []), ("n", obj [("df", num 1 0), ("docs", obj [("3", obj [("tf", num 10 1)])])])])]), ("s", obj [("df", num 3 0), ("docs", obj [("0", obj [("tf", num 10 1)]), ("2", obj [("tf", num 10 1)]), ("3", obj [("tf", num 10 1)])])]), ("t", obj [("df", num 0 0), ("docs", obj []), ("i", obj [("df", num 0 0), ("docs", obj []), ("l", obj [("df", num 1 0), ("docs", obj [("1", obj [("tf", num 10 1)])])])])])]),
    ("v", obj [("a", obj [("df", num 0 0), ("docs", obj []), ("l", obj [("df", num 0 0), ("docs", obj []), ("u", obj [("a", obj [("b", obj [("df", num 0 0), ("docs", obj []), ("l", obj [("df", num 1 0), ("docs", obj [("5", obj [("tf", num 10 1)])])])]), ("df", num 0 0), ("docs", obj [])]), ("df", num 0 0), ("docs", obj [])])]), ("r", obj [("df", num 0 0), ("docs", obj []), ("i", obj [("df", num 0 0), ("docs", obj []), ("e", obj [("df", num 0 0), ("docs", obj []), ("t", obj [("df", num 0 0), ("docs", obj []), ("i", obj [("df", num 1 0), ("docs", obj [("2", obj [("tf", num 10 1)])])])])])])])]), ("df", num 0 0), ("docs", obj [])]),
    ("w", obj [("df", num 0 0), ("docs", obj []), ("e", obj [("df", num 0 0), ("docs", obj []), ("l", obj [("c", obj [("df", num 0 0), ("docs", obj []), ("o", obj [("df", num 0 0), ("docs", obj []), ("m", obj [("df", num 1 0), ("docs", obj [("0", obj [("tf", num 10 1)])])])])]), ("df", num 0 0), ("docs", obj []), ("l", obj [("df", num 1 0), ("docs", obj [("1", obj [("tf", num 10 1)])])])])]), ("i", obj [("d", obj [("df", num 0 0), ("docs", obj []), ("e", obj [("df", num 1 0), ("docs", obj [("2", obj [("tf", num 10 1)])])])]), ("df", num 0 0), ("docs", obj [])])]),
    ("y", obj [("df", num 0 0), ("docs", obj []), ("o", obj [("df", num 0 0), ("docs", obj []), ("u", obj [("'", obj [("df", num 0 0), ("docs", obj []), ("l", obj [("df", num 0 0), ("docs", obj []), ("l", obj [("df", num 1 0), ("docs", obj [("2", obj [("tf", num 10 1)])])])])]), ("df", num 0 0), ("docs", obj [])])])])]

/-- The trie `index.index.breadcrumbs.root`. -/
def breadcrumbs_root : Json :=
  obj [
    ("1", obj [("df", num 1 0), ("docs", obj [("4", obj [("tf", num 17320508075688772 16)])])]),
    ("a", obj [("c", obj [("a", obj [("d", obj [("df", num 0 0), ("docs", obj []), ("e", obj [("df", num 0 0), ("docs", obj []), ("m", obj [("df", num 0 0), ("docs", obj []), ("i", obj [("df", num 2 0), ("docs", obj [("0", obj [("tf", num 17320508075688772 16)]), ("2", obj [("tf", num 10 1)])])]), ("y", obj [("'", obj [("df", num 1 0), ("docs", obj [("6", obj [("tf", num 10 1)])])]), ("df", num 0 0), ("docs", obj [])])])])]), ("df", num 0 0), ("docs", obj [])]), ("c", obj [("df", num 0 0), ("docs", obj []), ("e", obj [("df", num 0 0), ("docs", obj []), ("l", obj [("df", num 0 0), ("docs", obj []), ("e", obj [("df", num 0 0), ("docs", obj []), ("r", obj [("df", num 1 0), ("docs", obj [("0", obj [("tf", num 10 1)])])])])])])]), ("df", num 0 0), ("docs", obj [])]), ("d", obj [("d", obj [("df", num 1 0), ("docs", obj [("3", obj [("tf", num 10 1)])])]), ("df", num 0 0), ("docs", obj [])]), ("df", num 0 0), ("docs", obj []), ("l", obj [("df", num 0 0), ("docs", obj []), ("l", obj [("df", num 0 0), ("docs", obj []), ("o", obj [("df", num 0 0), ("docs", obj []), ("w", obj [("df", num 1 0), ("docs", obj [("0", obj [("tf", num 10 1)])])])])])]), ("p", obj [("df", num 0 0), ("docs", obj []), ("p", obj [("df", num 0 0), ("docs", obj []), ("l", obj [("df", num 0 0), ("docs", obj []), ("i", obj [("c", obj [("df", num 5 0), ("docs", obj [("0", obj [("tf", num 10 1)]), ("1", obj [("tf", num 10 1)]), ("2", obj [("tf", num 14142135623730951 16)]), ("3", obj [("tf", num 10 1)]), ("6", obj [("tf", num 10 1)])])]), ("df", num 0 0), ("docs", obj [])])])])]), ("u", obj [("df", num 0 0), ("docs", obj []), ("t", obj [("df", num 0 0), ("docs", obj []), ("o", obj [("df", num 0 0), ("docs", obj []), ("n", obj [("df", num 0 0), ("docs", obj []), ("o", obj [("df", num 0 0), ("docs", obj []), ("m", obj [("df", num 1 0), ("docs", obj [("2", obj [("tf", num 10 1)])])])])])])])]), ("v", obj [("a", obj [("df", num 0 0), ("docs", obj []), ("i", obj [("df", num 0 0), ("docs", obj []), ("l", obj [("df", num 1 0), ("docs", obj [("3", obj [("tf", num 10 1)])])])])]), ("df", num 0 0), ("docs", obj [])])]),
    ("b", obj [("a", obj [("df", num 0 0), ("docs", obj []), ("s", obj [("df", num 0 0), ("docs", obj []), ("i", obj [("c", obj [("df", num 1 0), ("docs", obj [("2", obj [("tf", num 10 1)])])]), ("df", num 0 0), ("docs", obj [])])])]), ("df", num 0 0), ("docs", obj []), ("e", obj [("c", obj [("df", num 0 0), ("docs", obj []), ("o", obj [("df", num 0 0), ("docs", obj []), ("m", obj [("df", num 1 0), ("docs", obj [("6", obj [("tf", num 10 1)])])])])]), ("df", num 0 0), ("docs", obj []), ("n", obj [("df", num 0 0), ("docs", obj []), ("e", obj [("df", num 0 0), ("docs", obj []), ("f", obj [("df", num 0 0), ("docs", obj []), ("i", obj [("df", num 0 0), ("docs", obj []), ("t", obj [("df", num 1 0), ("docs", obj [("1", obj [("tf", num 10 1)])])])])])])]), ("s", obj [("df", num 0 0), ("docs", obj []), ("t", obj [("df", num 1 0), ("docs", obj [("1", obj [("tf", num 10 1)])])])])]), ("r", obj [("df", num 0 0), ("docs", obj []), ("o", obj [("df", num 0 0), ("docs", obj []), ("w", obj [("df", num 0 0), ("docs", obj []), ("s", obj [("df", num 1 0), ("docs", obj [("3", obj [("tf", num 10 1)])])])])])]), ("u", obj [("df", num 0 0), ("docs", obj []), ("i", obj [("df", num 0 0), ("docs", obj []), ("l", obj [("d", obj [("df", num 5 0), ("docs", obj [("0", obj [("tf", num 14142135623730951 16)]), ("1", obj [("tf", num 10 1)]), ("2", obj [("tf", num 14142135623730951 16)]), ("3", obj [("tf", num 10 1)]), ("6", obj [("tf", num 14142135623730951 16)])])]), ("df", num 0 0), ("docs", obj []), ("t", obj [("df", num 1 0), ("docs", obj [("1", obj [("tf", num 10 1)])])])])])])]),
    ("c", obj [("a", obj [("df", num 0 0), ("docs", obj []), ("i", obj [("df", num 0 0), ("docs", obj []), ("r", obj [("df", num 0 0), ("docs", obj []), ("o", obj [("df", num 3 0), ("docs", obj [("0", obj [("tf", num 17320508075688772 16)]), ("2", obj [("tf", num 14142135623730951 16)]), ("6", obj [("tf", num 10 1)])])])])]), ("s", obj [("df", num 0 0), ("docs", obj []), ("e", obj [("df", num 1 0), ("docs", obj [("2", obj [("tf", num 10 1)])])])]), ("t", obj [("df", num 0 0), ("docs", obj []), ("e", obj [("df", num 0 0), ("docs", obj []), ("r", obj [("df", num 1 0), ("docs", obj [("2", obj [("tf", num 10 1)])])])])])]), ("df", num 0 0), ("docs", obj []), ("h", obj [("a", obj [("df", num 0 0), ("docs", obj []), ("i", obj [("df", num 0 0), ("docs", obj []), ("n", obj [("df", num 1 0), ("docs", obj [("2", obj [("tf", num 10 1)])])])]), ("p", obj [("df", num 0 0), ("docs", obj []), ("t", obj [("df", num 0 0), ("docs", obj []), ("e", obj [("df", num 0 0), ("docs", obj []), ("r", obj [("df", num 1 0), ("docs", obj [("4", obj [("tf", num 17320508075688772 16)])])])])])])]), ("df", num 0 0), ("docs", obj []), ("o", obj [("df", num 0 0), ("docs", obj []), ("o", obj [("df", num 0 0), ("docs", obj []), ("s", obj [("df", num 1 0), ("docs", obj [("3", obj [("tf", num 10 1)])])])])])]), ("l", obj [("df", num 0 0), ("docs", obj []), ("o", obj [("df", num 0 0), ("docs", obj []), ("n", obj [("df", num 0 0), ("docs", obj []), ("e", obj [("df", num 1 0), ("docs", obj [("3", obj [("tf", num 10 1)])])])])])]), ("o", obj [("d", obj [("df", num 0 0), ("docs", obj []), ("e", obj [("df", num 2 0), ("docs", obj [("1", obj [("tf", num 14142135623730951 16)]), ("3", obj [("tf", num 10 1)])])])]), ("df", num 0 0), ("docs", obj []), ("l", obj [("df", num 0 0), ("docs", obj []), ("l", obj [("df", num 0 0), ("docs", obj []), ("e", obj [("c", obj [("df", num 0 0), ("docs", obj []), ("t", obj [("df", num 1 0), ("docs", obj [("0", obj [("tf", num 10 1)])])])]), ("df", num 0 0), ("docs", obj [])])])]), ("m", obj [("df", num 0 0), ("docs", obj []), ("m", obj [("df", num 0 0), ("docs", obj []), ("u", obj [("df", num 0 0), ("docs", obj []), ("n", obj [("df", num 2 0), ("docs", obj [("1", obj [("tf", num 14142135623730951 16)]), ("5", obj [("tf", num 10 1)])])])])]), ("p", obj [("df", num 0 0), ("docs", obj []), ("i", obj [("df", num 0 0), ("docs", obj []), ("l", obj [("df", num 1 0), ("docs", obj [("3", obj [("tf", num 10 1)])])])]), ("o", obj [("df", num 0 0), ("docs", obj []), ("n", obj [("df", num 1 0), ("docs", obj [("1", obj [("tf", num 10 1)])])])])])]), ("n", obj [("df", num 0 0), ("docs", obj []), ("s", obj [("df", num 0 0), ("docs", obj []), ("i", obj [("df", num 0 0), ("docs", obj []), ("s", obj [("df", num 0 0), ("docs", obj []), ("t", obj [("df", num 1 0), ("docs", obj [("1", obj [("tf", num 10 1)])])])])]), ("t", obj [("a", obj [("df", num 0 0), ("docs", obj []), ("n", obj [("df", num 0 0), ("docs", obj []), ("t", obj [("df", num 0 0), ("docs", obj []), ("l", obj [("df", num 0 0), ("docs", obj []), ("i", obj [("df", num 1 0), ("docs", obj [("2", obj [("tf", num 10 1)])])])])])])]), ("df", num 0 0), ("docs", obj [])])]), ("t", obj [("df", num 0 0), ("docs", obj []), ("r", obj [("a", obj [("c", obj [("df", num 0 0), ("docs", obj []), ("t", obj [("df", num 2 0), ("docs", obj [("2", obj [("tf", num 17320508075688772 16)]), ("3", obj [("tf", num 10 1)])])])]), ("df", num 0 0), ("docs", obj [])]), ("df", num 0 0), ("docs", obj []), ("i", obj [("b", obj [("df", num 0 0), ("docs", obj []), ("u", obj [("df", num 0 0), ("docs", obj []), ("t", obj [("df", num 3 0), ("docs", obj [("1", obj [("tf", num 10 1)]), ("5", obj [("tf", num 20 1)]), ("6", obj [("tf", num 14142135623730951 16)])])])])]), ("df", num 0 0), ("docs", obj [])])])])]), ("v", obj [("df", num 0 0), ("docs", obj []), ("e", obj [("df", num 0 0), ("docs", obj []), ("r", obj [("df", num 1 0), ("docs", obj [("2", obj [("tf", num 10 1)])])])])])]), ("r", obj [("df", num 0 0), ("docs", obj []), ("e", obj [("a", obj [("df", num 0 0), ("docs", obj []), ("t", obj [("df", num 2 0), ("docs", obj [("1", obj [("tf", num 10 1)]), ("2", obj [("tf", num 10 1)])])])]), ("df", num 0 0), ("docs", obj [])])]), ("u", obj [("df", num 0 0), ("docs", obj []), ("r", obj [("df", num 0 0), ("docs", obj []), ("v", obj [("df", num 1 0), ("docs", obj [("1", obj [("tf", num 10 1)])])])]), ("s", obj [("df", num 0 0), ("docs", obj []), ("t", obj [("df", num 0 0), ("docs", obj []), ("o", obj [("df", num 0 0), ("docs", obj []), ("m", obj [("df", num 1 0), ("docs", obj [("3", obj [("tf", num 14142135623730951 16)])])])])])])])]),
    ("d", obj [("a", obj [("df", num 0 0), ("docs", obj []), ("o", obj [("df", num 1 0), ("docs", obj [("2", obj [("tf", num 10 1)])])])]), ("df", num 0 0), ("docs", obj []), ("e", obj [("c", obj [("df", num 0 0), ("docs", obj []), ("e", obj [("df", num 0 0), ("docs", obj []), ("n", obj [("df", num 0 0), ("docs", obj []), ("t", obj [("df", num 0 0), ("docs", obj []), ("r", obj [("df", num 3 0), ("docs", obj [("0", obj [("tf", num 10 1)]), ("2", obj [("tf", num 14142135623730951 16)]), ("6", obj [("tf", num 10 1)])])])])])])]), ("df", num 0 0), ("docs", obj []), ("f", obj [("df", num 0 0), ("docs", obj []), ("i", obj [("df", num 1 0), ("docs", obj [("2", obj [("tf", num 10 1)])])])]), ("p", obj [("df", num 0 0), ("docs", obj []), ("l", obj [("df", num 0 0), ("docs", obj []), ("o", obj [("df", num 0 0), ("docs", obj []), ("y", obj [("df", num 2 0), ("docs", obj [("2", obj [("tf", num 10 1)]), ("3", obj [("tf", num 14142135623730951 16)])])])])])]), ("s", obj [("df", num 0 0), ("docs", obj []), ("i", obj [("df", num 0 0), ("docs", obj []), ("g", obj [("df", num 0 0), ("docs", obj []), ("n", obj [("df", num 3 0), ("docs", obj [("0", obj [("tf", num 10 1)]), ("1", obj [("tf", num 10 1)]), ("6", obj [("tf", num 10 1)])])])])])]), ("v", obj [("df", num 0 0), ("docs", obj []), ("e", obj [("df", num 0 0), ("docs", obj []), ("l", obj [("df", num 0 0), ("docs", obj []), ("o", obj [("df", num 0 0), ("docs", obj []), ("p", obj [("df", num 2 0), ("docs", obj [("0", obj [("tf", num 20 1)]), ("2", obj [("tf", num 10 1)])])])])])])])]), ("i", obj [("df", num 0 0), ("docs", obj []), ("f", obj [("df", num 0 0), ("docs", obj []), ("f", obj [("df", num 0 0), ("docs", obj []), ("e", obj [("df", num 0 0), ("docs", obj []), ("r", obj [("df", num 1 0), ("docs", obj [("2", obj [("tf", num 10 1)])])])])])]), ("v", obj [("df", num 0 0), ("docs", obj []), ("e", obj [("df", num 1 0), ("docs", obj [("1", obj [("tf", num 10 1)])])])])]), ("o", obj [("df", num 0 0), ("docs", obj []), ("w", obj [("df", num 0 0), ("docs", obj []), ("n", obj [("df", num 0 0), ("docs", obj []), ("l", obj [("df", num 0 0), ("docs", obj []), ("o", obj [("a", obj [("d", obj [("/", obj [("c", obj [("df", num 0 0), ("docs", obj []), ("l", obj [("df", num 0 0), ("docs", obj []), ("o", obj [("df", num 0 0), ("docs", obj []), ("n", obj [("df", num 1 0), ("docs", obj [("3", obj [("tf", num 10 1)])])])])])]), ("df", num 0 0), ("docs", obj [])]), ("df", num 1 0), ("docs", obj [("3", obj [("tf", num 10 1)])])]), ("df", num 0 0), ("docs", obj [])]), ("df", num 0 0), ("docs", obj [])])])])])])]),
    ("df", num 0 0),
    ("docs", obj []),
    ("e", obj [("c", obj [("df", num 0 0), ("docs", obj []), ("o", obj [("df", num 0 0), ("docs", obj []), ("s", obj [("df", num 0 0), ("docs", obj []), ("y", obj [("df", num 0 0), ("docs", obj []), ("s", obj [("df", num 0 0), ("docs", obj []), ("t", obj [("df", num 0 0), ("docs", obj []), ("e", obj [("df", num 0 0), ("docs", obj []), ("m", obj [("df", num 1 0), ("docs", obj [("6", obj [("tf", num 17320508075688772 16)])])])])])])])])])]), ("df", num 0 0), ("docs", obj []), ("n", obj [("c", obj [("df", num 0 0), ("docs", obj []), ("o", obj [("df", num 0 0), ("docs", obj []), ("u", obj [("df", num 0 0), ("docs", obj []), ("r", obj [("a", obj [("df", num 0 0), ("docs", obj []), ("g", obj [("df", num 1 0), ("docs", obj [("5", obj [("tf", num 10 1)])])])]), ("df", num 0 0), ("docs", obj [])])])])]), ("df", num 0 0), ("docs", obj [])]), ("s", obj [("df", num 0 0), ("docs", obj []), ("t", obj [("a", obj [("b", obj [("df", num 0 0), ("docs", obj []), ("l", obj [("df", num 0 0), ("docs", obj []), ("i", obj [("df", num 0 0), ("docs", obj []), ("s", obj [("df", num 0 0), ("docs", obj []), ("h", obj [("df", num 1 0), ("docs", obj [("1", obj [("tf", num 10 1)])])])])])])]), ("df", num 0 0), ("docs", obj [])]), ("df", num 0 0), ("docs", obj [])])]), ("x", obj [("df", num 0 0), ("docs", obj []), ("i", obj [("df", num 0 0), ("docs", obj []), ("s", obj [("df", num 0 0), ("docs", obj []), ("t", obj [("df", num 1 0), ("docs", obj [("5", obj [("tf", num 10 1)])])])])]), ("p", obj [("a", obj [("df", num 0 0), ("docs", obj []), ("n", obj [("d", obj [("df", num 1 0), ("docs", obj [("2", obj [("tf", num 10 1)])])]), ("df", num 0 0), ("docs", obj [])])]), ("df", num 0 0), ("docs", obj []), ("l", obj [("df", num 0 0), ("docs", obj []), ("o", obj [("df", num 0 0), ("docs", obj []), ("r", obj [("df", num 1 0), ("docs", obj [("3", obj [("tf", num 10 1)])])])])])])])]),
    ("f", obj [("a", obj [("df", num 0 0), ("docs", obj []), ("s", obj [("df", num 0 0), ("docs", obj []), ("t", obj [("df", num 0 0), ("docs", obj []), ("e", obj [("df", num 0 0), ("docs", obj []), ("r", obj [("df", num 1 0), ("docs", obj [("0", obj [("tf", num 10 1)])])])])])])]), ("df", num 0 0), ("docs", obj []), ("e", obj [("a", obj [("df", num 0 0), ("docs", obj []), ("t", obj [("df", num 0 0), ("docs", obj []), ("u", obj [("df", num 0 0), ("docs", obj []), ("r", obj [("df", num 1 0), ("docs", obj [("3", obj [("tf", num 10 1)])])])])])]), ("df", num 0 0), ("docs", obj [])]), ("i", obj [("df", num 0 0), ("docs", obj []), ("n", obj [("a", obj [("df", num 0 0), ("docs", obj []), ("n", obj [("c", obj [("df", num 1 0), ("docs", obj [("2", obj [("tf", num 10 1)])])]), ("df", num 0 0), ("docs", obj [])])]), ("d", obj [("df", num 1 0), ("docs", obj [("2", obj [("tf", num 14142135623730951 16)])])]), ("df", num 0 0), ("docs", obj [])]), ("t", obj [("df", num 1 0), ("docs", obj [("3", obj [("tf", num 14142135623730951 16)])])])]), ("o", obj [("c", obj [("df", num 0 0), ("docs", obj []), ("u", obj [("df", num 1 0), ("docs", obj [("0", obj [("tf", num 10 1)])])])]), ("df", num 0 0), ("docs", obj []), ("u", obj [("df", num 0 0), ("docs", obj []), ("n", obj [("d", obj [("a", obj [("df", num 0 0), ("docs", obj []), ("t", obj [("df", num 1 0), ("docs", obj [("2", obj [("tf", num 10 1)])])])]), ("df", num 0 0), ("docs", obj [])]), ("df", num 0 0), ("docs", obj [])])])]), ("u", obj [("df", num 0 0), ("docs", obj []), ("n", obj [("c", obj [("df", num 0 0), ("docs", obj []), ("t", obj [("df", num 0 0), ("docs", obj []), ("i", obj [("df", num 0 0), ("docs", obj []), ("o", obj [("df", num 0 0), ("docs", obj []), ("n", obj [("df", num 1 0), ("docs", obj [("1", obj [("tf", num 10 1)])])])])])])]), ("df", num 0 0), ("docs", obj []), ("g", obj [("df", num 0 0), ("docs", obj []), ("i", obj [("b", obj [("df", num 0 0), ("docs", obj []), ("l", obj [("df", num 1 0), ("docs", obj [("2", obj [("tf", num 14142135623730951 16)])])])]), ("df", num 0 0), ("docs", obj [])])])]), ("t", obj [("df", num 0 0), ("docs", obj []), ("u", obj [("df", num 0 0), ("docs", obj []), ("r", obj [("df", num 1 0), ("docs", obj [("6", obj [("tf", num 10 1)])])])])])])]),
    ("g", obj [("a", obj [("df", num 0 0), ("docs", obj []), ("m", obj [("df", num 0 0), ("docs", obj []), ("e", obj [("df", num 1 0), ("docs", obj [("2", obj [("tf", num 14142135623730951 16)])])])])]), ("df", num 0 0), ("docs", obj [])]),
    ("h", obj [("df", num 0 0), ("docs", obj []), ("e", obj [("a", obj [("d", obj [("df", num 1 0), ("docs", obj [("1", obj [("tf", num 10 1)])])]), ("df", num 0 0), ("docs", obj [])]), ("df", num 0 0), ("docs", obj []), ("l", obj [("df", num 0 0), ("docs", obj []), ("p", obj [("df", num 1 0), ("docs", obj [("6", obj [("tf", num 10 1)])])])])])]),
    ("i", obj [("df", num 0 0), ("docs", obj []), ("m", obj [("df", num 0 0), ("docs", obj []), ("p", obj [("df", num 0 0), ("docs", obj []), ("r", obj [("df", num 0 0), ("docs", obj []), ("o", obj [("df", num 0 0), ("docs", obj []), ("v", obj [("df", num 2 0), ("docs", obj [("1", obj [("tf", num 10 1)]), ("5", obj [("tf", num 10 1)])])])])])])]), ("n", obj [("df", num 0 0), ("docs", obj []), ("i", obj [("df", num 0 0), ("docs", obj []), ("t", obj [("df", num 0 0), ("docs", obj []), ("i", obj [("df", num 1 0), ("docs", obj [("1", obj [("tf", num 10 1)])])])])]), ("n", obj [("df", num 0 0), ("docs", obj []), ("o", obj [("df", num 0 0), ("docs", obj []), ("v", obj [("df", num 1 0), ("docs", obj [("0", obj [("tf", num 10 1)])])])])]), ("t", obj [("df", num 0 0), ("docs", obj []), ("r", obj [("df", num 0 0), ("docs", obj []), ("o", obj [("d", obj [("df", num 0 0), ("docs", obj []), ("u", obj [("c", obj [("df", num 0 0), ("docs", obj []), ("t", obj [("df", num 4 0), ("docs", obj [("0", obj [("tf", num 10 1)]), ("1", obj [("tf", num 10 1)]), ("2", obj [("tf", num 10 1)]), ("3", obj [("tf", num 10 1)])])])]), ("df", num 0 0), ("docs", obj [])])]), ("df", num 0 0), ("docs", obj [])])])])]), ("t", obj [("df", num 0 0), ("docs", obj []), ("e", obj [("df", num 0 0), ("docs", obj []), ("r", obj [("df", num 1 0), ("docs", obj [("3", obj [("tf", num 10 1)])])])])])]),
    ("j", obj [("df", num 0 0), ("docs", obj []), ("o", obj [("df", num 0 0), ("docs", obj []), ("i", obj [("df", num 0 0), ("docs", obj []), ("n", obj [("df", num 1 0), ("docs", obj [("6", obj [("tf", num 14142135623730951 16)])])])]), ("u", obj [("df", num 0 0), ("docs", obj []), ("r", obj [("df", num 0 0), ("docs", obj []), ("n", obj [("df", num 0 0), ("docs", obj []), ("e", obj [("df", num 0 0), ("docs", obj []), ("y", obj [("df", num 1 0), ("docs", obj [("0", obj [("tf", num 10 1)])])])])])])])]), ("u", obj [("df", num 0 0), ("docs", obj []), ("m", obj [("df", num 0 0), ("docs", obj []), ("p", obj [("df", num 0 0), ("docs", obj []), ("s", obj [("df", num 0 0), ("docs", obj []), ("t", obj [("a", obj [("df", num 0 0), ("docs", obj []), ("r", obj [("df", num 0 0), ("docs", obj []), ("t", obj [("df", num 1 0), ("docs", obj [("0", obj [("tf", num 14142135623730951 16)])])])])]), ("df", num 0 0), ("docs", obj [])])])])])])]),
    ("l", obj [("df", num 0 0), ("docs", obj []), ("e", obj [("a", obj [("df", num 0 0), ("docs", obj []), ("r", obj [("df", num 0 0), ("docs", obj []), ("n", obj [("df", num 2 0), ("docs", obj [("0", obj [("tf", num 10 1)]), ("1", obj [("tf", num 14142135623730951 16)])])])])]), ("df", num 0 0), ("docs", obj []), ("t", obj [("'", obj [("df", num 1 0), ("docs", obj [("6", obj [("tf", num 10 1)])])]), ("df", num 0 0), ("docs", obj [])]), ("v", obj [("df", num 0 0), ("docs", obj []), ("e", obj [("df", num 0 0), ("docs", obj []), ("r", obj [("a", obj [("df", num 0 0), ("docs", obj []), ("g", obj [("df", num 1 0), ("docs", obj [("0", obj [("tf", num 10 1)])])])]), ("df", num 0 0), ("docs", obj [])])])])]), ("i", obj [("b", obj [("df", num 0 0), ("docs", obj []), ("r", obj [("a", obj [("df", num 0 0), ("docs", obj []), ("r", obj [("df", num 0 0), ("docs", obj []), ("i", obj [("df", num 1 0), ("docs", obj [("2", obj [("tf", num 10 1)])])])])]), ("df", num 0 0), ("docs", obj [])])]), ("df", num 0 0), ("docs", obj [])]), ("o", obj [("df", num 0 0), ("docs", obj []), ("g", obj [("df", num 0 0), ("docs", obj []), ("i", obj [("c", obj [("df", num 1 0), ("docs", obj [("3", obj [("tf", num 10 1)])])]), ("df", num 0 0), ("docs", obj [])])])])]),
    ("m", obj [("a", obj [("df", num 0 0), ("docs", obj []), ("i", obj [("df", num 0 0), ("docs", obj []), ("n", obj [("df", num 0 0), ("docs", obj []), ("t", obj [("a", obj [("df", num 0 0), ("docs", obj []), ("i", obj [("df", num 0 0), ("docs", obj []), ("n", obj [("df", num 1 0), ("docs", obj [("1", obj [("tf", num 10 1)])])])])]), ("df", num 0 0), ("docs", obj [])])])])]), ("df", num 0 0), ("docs", obj []), ("e", obj [("df", num 0 0), ("docs", obj []), ("m", obj [("b", obj [("df", num 0 0), ("docs", obj []), ("e", obj [("df", num 0 0), ("docs", obj []), ("r", obj [("df", num 1 0), ("docs", obj [("6", obj [("tf", num 10 1)])])])])]), ("df", num 0 0), ("docs", obj [])])]), ("o", obj [("d", obj [("df", num 0 0), ("docs", obj []), ("i", obj [("df", num 0 0), ("docs", obj []), ("f", obj [("df", num 0 0), ("docs", obj []), ("i", obj [("df", num 1 0), ("docs", obj [("3", obj [("tf", num 10 1)])])])])])]), ("df", num 0 0), ("docs", obj []), ("r", obj [("df", num 0 0), ("docs", obj []), ("e", obj [("df", num 1 0), ("docs", obj [("2", obj [("tf", num 10 1)])])])])])]),
    ("n", obj [("df", num 0 0), ("docs", obj []), ("e", obj [("df", num 0 0), ("docs", obj []), ("w", obj [("df", num 2 0), ("docs", obj [("3", obj [("tf", num 10 1)]), ("5", obj [("tf", num 10 1)])])])]), ("o", obj [("df", num 0 0), ("docs", obj []), ("n", obj [("df", num 1 0), ("docs", obj [("2", obj [("tf", num 10 1)])])])])]),
    ("o", obj [("df", num 0 0), ("docs", obj []), ("f", obj [("df", num 0 0), ("docs", obj []), ("f", obj [("df", num 0 0), ("docs", obj []), ("e", obj [("df", num 0 0), ("docs", obj []), ("r", obj [("df", num 1 0), ("docs", obj [("2", obj [("tf", num 10 1)])])])])])]), ("n", obj [("df", num 2 0), ("docs", obj [("3", obj [("tf", num 10 1)]), ("5", obj [("tf", num 10 1)])])]), ("r", obj [("df", num 0 0), ("docs", obj []), ("g", obj [("a", obj [("df", num 0 0), ("docs", obj []), ("n", obj [("df", num 1 0), ("docs", obj [("2", obj [("tf", num 10 1)])])])]), ("df", num 0 0), ("docs", obj [])])]), ("t", obj [("df", num 0 0), ("docs", obj []), ("h", obj [("df", num 0 0), ("docs", obj []), ("e", obj [("df", num 0 0), ("docs", obj []), ("r", obj [("df", num 1 0), ("docs", obj [("5", obj [("tf", num 10 1)])])])])])])]),
    ("p", obj [("a", obj [("df", num 0 0), ("docs", obj []), ("t", obj [("df", num 0 0), ("docs", obj []), ("t", obj [("df", num 0 0), ("docs", obj []), ("e", obj [("df", num 0 0), ("docs", obj []), ("r", obj [("df", num 0 0), ("docs", obj []), ("n", obj [("df", num 1 0), ("docs", obj [("1", obj [("tf", num 10 1)])])])])])])])]), ("df", num 0 0), ("docs", obj []), ("l", obj [("df", num 0 0), ("docs", obj []), ("e", obj [("a", obj [("df", num 0 0), ("docs", obj []), ("s", obj [("df", num 1 0), ("docs", obj [("5", obj [("tf", num 10 1)])])])]), ("df", num 0 0), ("docs", obj [])])]), ("o", obj [("df", num 0 0), ("docs", obj []), ("i", obj [("df", num 0 0), ("docs", obj []), ("n", obj [("df", num 0 0), ("docs", obj []), ("t", obj [("df", num 1 0), ("docs", obj [("2", obj [("tf", num 10 1)])])])])])]), ("r", obj [("a", obj [("c", obj [("df", num 0 0), ("docs", obj []), ("t", obj [("df", num 0 0), ("docs", obj []), ("i", obj [("c", obj [("df", num 1 0), ("docs", obj [("1", obj [("tf", num 10 1)])])]), ("df", num 0 0), ("docs", obj [])])])]), ("df", num 0 0), ("docs", obj [])]), ("df", num 0 0), ("docs", obj []), ("e", obj [("d", obj [("df", num 0 0), ("docs", obj []), ("e", obj [("df", num 0 0), ("docs", obj []), ("f", obj [("df", num 0 0), ("docs", obj []), ("i", obj [("df", num 0 0), ("docs", obj []), ("n", obj [("df", num 1 0), ("docs", obj [("0", obj [("tf", num 10 1)])])])])])])]), ("df", num 1 0), ("docs", obj [("1", obj [("tf", num 10 1)])])]), ("o", obj [("c", obj [("df", num 0 0), ("docs", obj []), ("e", obj [("df", num 0 0), ("docs", obj []), ("s", obj [("df", num 0 0), ("docs", obj []), ("s", obj [("df", num 1 0), ("docs", obj [("0", obj [("tf", num 10 1)])])])])])]), ("d", obj [("df", num 0 0), ("docs", obj []), ("u", obj [("c", obj [("df", num 0 0), ("docs", obj []), ("t", obj [("df", num 1 0), ("docs", obj [("6", obj [("tf", num 10 1)])])])]), ("df", num 0 0), ("docs", obj [])])]), ("df", num 0 0), ("docs", obj []), ("j", obj [("df", num 0 0), ("docs", obj []), ("e", obj [("c", obj [("df", num 0 0), ("docs", obj []), ("t", obj [("df", num 2 0), ("docs", obj [("1", obj [("tf", num 10 1)]), ("3", obj [("tf", num 10 1)])])])]), ("df", num 0 0), ("docs", obj [])])]), ("t", obj [("df", num 0 0), ("docs", obj []), ("o", obj [("df", num 0 0), ("docs", obj []), ("t", obj [("df", num 0 0), ("docs", obj []), ("y", obj [("df", num 0 0), ("docs", obj []), ("p", obj [("df", num 1 0), ("docs", obj [("1", obj [("tf", num 10 1)])])])])])])]), ("v", obj [("df", num 0 0), ("docs", obj []), ("i", obj [("d", obj [("df", num 1 0), ("docs", obj [("0", obj [("tf", num 10 1)])])]), ("df", num 0 0), ("docs", obj [])])])])]), ("u", obj [("df", num 0 0), ("docs", obj []), ("l", obj [("df", num 0 0), ("docs", obj []), ("l", obj [("df", num 1 0), ("docs", obj [("5", obj [("tf", num 10 1)])])])])])]),
    ("q", obj [("df", num 0 0), ("docs", obj []), ("u", obj [("a", obj [("df", num 0 0), ("docs", obj []), ("l", obj [("df", num 0 0), ("docs", obj []), ("i", obj [("df", num 0 0), ("docs", obj []), ("t", obj [("df", num 0 0), ("docs", obj []), ("i", obj [("df", num 1 0), ("docs", obj [("1", obj [("tf", num 10 1)])])])])])])]), ("df", num 0 0), ("docs", obj []), ("i", obj [("c", obj [("df", num 0 0), ("docs", obj []), ("k", obj [("df", num 0 0), ("docs", obj []), ("l", obj [("df", num 0 0), ("docs", obj []), ("i", obj [("df", num 1 0), ("docs", obj [("6", obj [("tf", num 10 1)])])])])])]), ("df", num 0 0), ("docs", obj [])])])]),
    ("r", obj [("a", obj [("df", num 0 0), ("docs", obj []), ("n", obj [("df", num 0 0), ("docs", obj []), ("g", obj [("df", num 1 0), ("docs", obj [("2", obj [("tf", num 10 1)])])])]), ("p", obj [("df", num 0 0), ("docs", obj []), ("i", obj [("d", obj [("df", num 1 0), ("docs", obj [("1", obj [("tf", num 10 1)])])]), ("df", num 0 0), ("docs", obj [])])])]), ("df", num 0 0), ("docs", obj []), ("e", obj [("a", obj [("d", obj [("df", num 0 0), ("docs", obj []), ("i", obj [("df", num 1 0), ("docs", obj [("0", obj [("tf", num 10 1)])])])]), ("df", num 0 0), ("docs", obj [])]), ("d", obj [("df", num 0 0), ("docs", obj []), ("u", obj [("c", obj [("df", num 1 0), ("docs", obj [("1", obj [("tf", num 10 1)])])]), ("df", num 0 0), ("docs", obj [])])]), ("df", num 0 0), ("docs", obj []), ("p", obj [("df", num 0 0), ("docs", obj []), ("o", obj [("df", num 0 0), ("docs", obj []), ("s", obj [("df", num 0 0), ("docs", obj []), ("i", obj [("df", num 0 0), ("docs", obj []), ("t", obj [("df", num 0 0), ("docs", obj []), ("o", obj [("df", num 0 0), ("docs", obj []), ("r", obj [("df", num 0 0), ("docs", obj []), ("i", obj [("df", num 1 0), ("docs", obj [("3", obj [("tf", num 10 1)])])])])])])])])])]), ("q", obj [("df", num 0 0), ("docs", obj []), ("u", obj [("df", num 0 0), ("docs", obj []), ("e", obj [("df", num 0 0), ("docs", obj []), ("s", obj [("df", num 0 0), ("docs", obj []), ("t", obj [("df", num 1 0), ("docs", obj [("5", obj [("tf", num 10 1)])])])])]), ("i", obj [("df", num 0 0), ("docs", obj []), ("r", obj [("df", num 1 0), ("docs", obj [("3", obj [("tf", num 10 1)])])])])])])])]),
    ("s", obj [("df", num 0 0), ("docs", obj []), ("e", obj [("df", num 0 0), ("docs", obj []), ("t", obj [("df", num 0 0), ("docs", obj []), ("u", obj [("df", num 0 0), ("docs", obj []), ("p", obj [("df", num 1 0), ("docs", obj [("1", obj [("tf", num 10 1)])])])])])]), ("i", obj [("df", num 0 0), ("docs", obj []), ("m", obj [("df", num 0 0), ("docs", obj []), ("p", obj [("df", num 0 0), ("docs", obj []), ("l", obj [("df", num 1 0), ("docs", obj [("2", obj [("tf", num 10 1)])]), ("i", obj [("df", num 0 0), ("docs", obj []), ("f", obj [("df", num 0 0), ("docs", obj []), ("i", obj [("df", num 1 0), ("docs", obj [("0", obj [("tf", num 10 1)])])])])])])])])]), ("k", obj [("df", num 0 0), ("docs", obj []), ("i", obj [("df", num 0 0), ("docs", obj []), ("p", obj [("df", num 1 0), ("docs", obj [("1", obj [("tf", num 10 1)])])])])]), ("m", obj [("a", obj [("df", num 0 0), ("docs", obj []), ("r", obj [("df", num 0 0), ("docs", obj []), ("t", obj [("df", num 2 0), ("docs", obj [("2", obj [("tf", num 14142135623730951 16)]), ("3", obj [("tf", num 10 1)])])])])]), ("df", num 0 0), ("docs", obj [])]), ("p", obj [("df", num 0 0), ("docs", obj []), ("e", obj [("c", obj [("df", num 0 0), ("docs", obj []), ("i", obj [("df", num 0 0), ("docs", obj []), ("f", obj [("df", num 1 0), ("docs", obj [("3", obj [("tf", num 10 1)])])])])]), ("df", num 0 0), ("docs", obj [])])]), ("t", obj [("a", obj [("df", num 0 0), ("docs", obj []), ("r", obj [("df", num 0 0), ("docs", obj []), ("k", obj [("df", num 0 0), ("docs", obj []), ("n", obj [("df", num 0 0), ("docs", obj []), ("e", obj [("df", num 0 0), ("docs", obj []), ("t", obj [("df", num 5 0), ("docs", obj [("0", obj [("tf", num 20 1)]), ("1", obj [("tf", num 10 1)]), ("2", obj [("tf", num 10 1)]), ("3", obj [("tf", num 10 1)]), ("6", obj [("tf", num 17320508075688772 16)])])])])])]), ("t", obj [("df", num 3 0), ("docs", obj [("1", obj [("tf", num 10 1)]), ("2", obj [("tf", num 10 1)]), ("6", obj [("tf", num 10 1)])])])])]), ("df", num 0 0), ("docs", obj []), ("r", obj [("a", obj [("df", num 0 0), ("docs", obj []), ("i", obj [("df", num 0 0), ("docs", obj []), ("g", obj [("df", num 0 0), ("docs", obj []), ("h", obj [("df", num 0 0), ("docs", obj []), ("t", obj [("df", num 1 0), ("docs", obj [("1", obj [("tf", num 10 1)])])])])])])]), ("df", num 0 0), ("docs", obj []), ("u", obj [("c", obj [("df", num 0 0), ("docs", obj []), ("t", obj [("df", num 0 0), ("docs", obj []), ("u", obj [("df", num 0 0), ("docs", obj []), ("r", obj [("df", num 1 0), ("docs", obj [("1", obj [("tf", num 10 1)])])])])])]), ("df", num 0 0), ("docs", obj [])])])]), ("u", obj [("b", obj [("df", num 0 0), ("docs", obj []), ("m", obj [("df", num 0 0), ("docs", obj []), ("i", obj [("df", num 0 0), ("docs", obj []), ("t", obj [("df", num 1 0), ("docs", obj [("5", obj [("tf", num 10 1)])])])])])]), ("df", num 0 0), ("docs", obj [])])]),
    ("t", obj [("df", num 0 0), ("docs", obj []), ("e", obj [("df", num 0 0), ("docs", obj []), ("m", obj [("df", num 0 0), ("docs", obj []), ("p", obj [("df", num 0 0), ("docs", obj []), ("l", obj [("a", obj [("df", num 0 0), ("docs", obj []), ("t", obj [("df", num 6 0), ("docs", obj [("0", obj [("tf", num 17320508075688772 16)]), ("1", obj [("tf", num 17320508075688772 16)]), ("2", obj [("tf", num 33166247903554 13)]), ("3", obj [("tf", num 26457513110645907 16)]), ("5", obj [("tf", num 20 1)]), ("6", obj [("tf", num 14142135623730951 16)])])])]), ("df", num 0 0), ("docs", obj [])])])])]), ("h", obj [("df", num 0 0), ("docs", obj []), ("i", obj [("df", num 0 0), ("docs", obj []), ("n", obj [("df", num 0 0), ("docs", obj []), ("k", obj [("df", num 1 0), ("docs", obj [("5", obj [("tf", num 10 1)])])])])])]), ("o", obj [("d", obj [("a", obj [("df", num 0 0), ("docs", obj []), ("y", obj [("df", num 1 0), ("docs", obj [("6", obj [("tf", num 10 1)])])])]), ("df", num 0 0), ("docs", obj [])]), ("df", num 0 0), ("docs", obj []), ("k", obj [("df", num 0 0), ("docs", obj []), ("e", obj [("df", num 0 0), ("docs", obj []), ("n", obj [("df", num 1 0), ("docs", obj [("2", obj [("tf", num 14142135623730951 16)])])])])])])]),
    ("u", obj [("df", num 0 0), ("docs", obj []), ("n", obj [("df", num 0 0), ("docs", obj []), ("i", obj [("df", num 0 0), ("docs", obj []), ("f", obj [("df", num 0 0), ("docs", obj []), ("o", obj [("df", num 0 0), ("docs", obj []), ("r", obj [("df", num 0 0), ("docs", obj []), ("m", obj [("df", num 1 0), ("docs", obj [("1", obj [("tf", num 10 1)])])])])])])])]), ("p", obj [("df", num 0 0), ("docs", obj []), ("o", obj [("df", num 0 0), ("docs", obj []), ("n", obj [("df", num 1 0), ("docs", obj [("3", obj [("tf", num 10 1)])])])])]), ("s", obj [("df", num 3 0), ("docs", obj [("0", obj [("tf", num 10 1)]), ("2", obj [("tf", num 10 1)]), ("3", obj [("tf", num 14142135623730951 16)])])]), ("t", obj [("df", num 0 0), ("docs", obj []), ("i", obj [("df", num 0 0), ("docs", obj []), ("l", obj [("df", num 1 0), ("docs", obj [("1", obj [("tf", num 10 1)])])])])])]),
    ("v", obj [("a", obj [("df", num 0 0), ("docs", obj []), ("l", obj [("df", num 0 0), ("docs", obj []), ("u", obj [("a", obj [("b", obj [("df", num 0 0), ("docs", obj []), ("l", obj [("df", num 1 0), ("docs", obj [("5", obj [("tf", num 10 1)])])])]), ("df", num 0 0), ("docs", obj [])]), ("df", num 0 0), ("docs", obj [])])]), ("r", obj [("df", num 0 0), ("docs", obj []), ("i", obj [("df", num 0 0), ("docs", obj []), ("e", obj [("df", num 0 0), ("docs", obj []), ("t", obj [("df", num 0 0), ("docs", obj []), ("i", obj [("df", num 1 0), ("docs", obj [("2", obj [("tf", num 10 1)])])])])])])])]), ("df", num 0 0), ("docs", obj [])]),
    ("w", obj [("df", num 0 0), ("docs", obj []), ("e", obj [("df", num 0 0), ("docs", obj []), ("l", obj [("c", obj [("df", num 0 0), ("docs", obj []), ("o", obj [("df", num 0 0), ("docs", obj []), ("m", obj [("df", num 1 0), ("docs", obj [("0", obj [("tf", num 14142135623730951 16)])])])])]), ("df", num 0 0), ("docs", obj []), ("l", obj [("df", num 1 0), ("docs", obj [("1", obj [("tf", num 10 1)])])])])]), ("i", obj [("d", obj [("df", num 0 0), ("docs", obj []), ("e", obj [("df", num 1 0), ("docs", obj [("2", obj [("tf", num 10 1)])])])]), ("df", num 0 0), ("docs", obj [])])]),
    ("y", obj [("df", num 0 0), ("docs", obj []), ("o", obj [("df", num 0 0), ("docs", obj []), ("u", obj [("'", obj [("df", num 0 0), ("docs", obj []), ("l", obj [("df", num 0 0), ("docs", obj []), ("l", obj [("df", num 1 0), ("docs", obj [("2", obj [("tf", num 14142135623730951 16)])])])])]), ("df", num 0 0), ("docs", obj [])])])])]

/-- The trie `index.index.title.root`. -/
def title_root : Json :=
  obj [
    ("1", obj [("df", num 1 0), ("docs", obj [("4", obj [("tf", num 10 1)])])]),
    ("a", obj [("c", obj [("a", obj [("d", obj [("df", num 0 0), ("docs", obj []), ("e", obj [("df", num 0 0), ("docs", obj []), ("m", obj [("df", num 0 0), ("docs", obj []), ("i", obj [("df", num 1 0), ("docs", obj [("0", obj [("tf", num 10 1)])])])])])]), ("df", num 0 0), ("docs", obj [])]), ("df", num 0 0), ("docs", obj [])]), ("df", num 0 0), ("docs", obj [])]),
    ("c", obj [("a", obj [("df", num 0 0), ("docs", obj []), ("i", obj [("df", num 0 0), ("docs", obj []), ("r", obj [("df", num 0 0), ("docs", obj []), ("o", obj [("df", num 1 0), ("docs", obj [("0", obj [("tf", num 10 1)])])])])])]), ("df", num 0 0), ("docs", obj []), ("h", obj [("a", obj [("df", num 0 0), ("docs", obj []), ("p", obj [("df", num 0 0), ("docs", obj []), ("t", obj [("df", num 0 0), ("docs", obj []), ("e", obj [("df", num 0 0), ("docs", obj []), ("r", obj [("df", num 1 0), ("docs", obj [("4", obj [("tf", num 10 1)])])])])])])]), ("df", num 0 0), ("docs", obj [])]), ("o", obj [("df", num 0 0), ("docs", obj []), ("n", obj [("df", num 0 0), ("docs", obj []), ("t", obj [("df", num 0 0), ("docs", obj []), ("r", obj [("df", num 0 0), ("docs", obj []), ("i", obj [("b", obj [("df", num 0 0), ("docs", obj []), ("u", obj [("df", num 0 0), ("docs", obj []), ("t", obj [("df", num 1 0), ("docs", obj [("5", obj [("tf", num 10 1)])])])])]), ("df", num 0 0), ("docs", obj [])])])])])])]),
    ("d", obj [("df", num 0 0), ("docs", obj []), ("e", obj [("df", num 0 0), ("docs", obj []), ("v", obj [("df", num 0 0), ("docs", obj []), ("e", obj [("df", num 0 0), ("docs", obj []), ("l", obj [("df", num 0 0), ("docs", obj []), ("o", obj [("df", num 0 0), ("docs", obj []), ("p", obj [("df", num 1 0), ("docs", obj [("0", obj [("tf", num 10 1)])])])])])])])])]),
    ("df", num 0 0),
    ("docs", obj []),
    ("e", obj [("c", obj [("df", num 0 0), ("docs", obj []), ("o", obj [("df", num 0 0), ("docs", obj []), ("s", obj [("df", num 0 0), ("docs", obj []), ("y", obj [("df", num 0 0), ("docs", obj []), ("s", obj [("df", num 0 0), ("docs", obj []), ("t", obj [("df", num 0 0), ("docs", obj []), ("e", obj [("df", num 0 0), ("docs", obj []), ("m", obj [("df", num 1 0), ("docs", obj [("6", obj [("tf", num 10 1)])])])])])])])])])]), ("df", num 0 0), ("docs", obj [])]),
    ("f", obj [("df", num 0 0), ("docs", obj []), ("i", obj [("df", num 0 0), ("docs", obj []), ("n", obj [("d", obj [("df", num 1 0), ("docs", obj [("2", obj [("tf", num 10 1)])])]), ("df", num 0 0), ("docs", obj [])])])]),
    ("j", obj [("df", num 0 0), ("docs", obj []), ("o", obj [("df", num 0 0), ("docs", obj []), ("i", obj [("df", num 0 0), ("docs", obj []), ("n", obj [("df", num 1 0), ("docs", obj [("6", obj [("tf", num 10 1)])])])])]), ("u", obj [("df", num 0 0), ("docs", obj []), ("m", obj [("df", num 0 0), ("docs", obj []), ("p", obj [("df", num 0 0), ("docs", obj []), ("s", obj [("df", num 0 0), ("docs", obj []), ("t", obj [("a", obj [("df", num 0 0), ("docs", obj []), ("r", obj [("df", num 0 0), ("docs", obj []), ("t", obj [("df", num 1 0), ("docs", obj [("0", obj [("tf", num 10 1)])])])])]), ("df", num 0 0), ("docs", obj [])])])])])])]),
    ("s", obj [("df", num 0 0), ("docs", obj []), ("t", obj [("a", obj [("df", num 0 0), ("docs", obj []), ("r", obj [("df", num 0 0), ("docs", obj []), ("k", obj [("df", num 0 0), ("docs", obj []), ("n", obj [("df", num 0 0), ("docs", obj []), ("e", obj [("df", num 0 0), ("docs", obj []), ("t", obj [("df", num 2 0), ("docs", obj [("0", obj [("tf", num 10 1)]), ("6", obj [("tf", num 10 1)])])])])])])])]), ("df", num 0 0), ("docs", obj [])])]),
    ("t", obj [("df", num 0 0), ("docs", obj []), ("e", obj [("df", num 0 0), ("docs", obj []), ("m", obj [("df", num 0 0), ("docs", obj []), ("p", obj [("df", num 0 0), ("docs", obj []), ("l", obj [("a", obj [("df", num 0 0), ("docs", obj []), ("t", obj [("df", num 3 0), ("docs", obj [("1", obj [("tf", num 10 1)]), ("3", obj [("tf", num 10 1)]), ("5", obj [("tf", num 10 1)])])])]), ("df", num 0 0), ("docs", obj [])])])])])]),
    ("u", obj [("df", num 0 0), ("docs", obj []), ("s", obj [("df", num 1 0), ("docs", obj [("3", obj [("tf", num 10 1)])])])]),
    ("w", obj [("df", num 0 0), ("docs", obj []), ("e", obj [("df", num 0 0), ("docs", obj []), ("l", obj [("c", obj [("df", num 0 0), ("docs", obj []), ("o", obj [("df", num 0 0), ("docs", obj []), ("m", obj [("df", num 1 0), ("docs", obj [("0", obj [("tf", num 10 1)])])])])]), ("df", num 0 0), ("docs", obj [])])])]),
    ("y", obj [("df", num 0 0), ("docs", obj []), ("o", obj [("df", num 0 0), ("docs", obj []), ("u", obj [("'", obj [("df", num 0 0), ("docs", obj []), ("l", obj [("df", num 0 0), ("docs", obj []), ("l", obj [("df", num 1 0), ("docs", obj [("2", obj [("tf", num 10 1)])])])])]), ("df", num 0 0), ("docs", obj [])])])])]

/-- The object `index` of the literal. -/
def index : Json :=
  obj [
    ("documentStore", documentStore),
    ("fields", arr [str "title", str "body", str "breadcrumbs"]),
    ("index", obj [("body", obj [("root", body_root)]), ("breadcrumbs", obj [("root", breadcrumbs_root)]), ("title", obj [("root", title_root)])]),
    ("lang", str "English"),
    ("pipeline", arr [str "trimmer", str "stopWordFilter", str "stemmer"]),
    ("ref", str "id"),
    ("version", str "0.9.5")]

/-- The object `results_options` of the literal. -/
def results_options : Json :=
  obj [("limit_results", num 30 0), ("teaser_word_count", num 30 0)]

/-- The object `search_options` of the literal. -/
def search_options : Json :=
  obj [("bool", str "OR"), ("expand", bool true), ("fields", obj [("body", obj [("boost", num 1 0)]), ("breadcrumbs", obj [("boost", num 1 0)]), ("title", obj [("boost", num 2 0)])])]

/-- The object literal passed as second argument to `Object.assign(window.search, ...)`. -/
def searchLiteral : Json :=
  obj [("doc_urls", doc_urls), ("index", index), ("results_options", results_options), ("search_options", search_options)]

/-- A node of a field trie has the two data properties `df` and `docs`; every
other key of it leads to a child node. -/
def isChildKey (k : String) : Bool := k != "df" && k != "docs"

mutual
/-- The nodes of the trie rooted at a value, the root included, each with the
list of keys on the way from the root to it. -/
def trieEntries (path : List String) : Json → List (List String × Json)
  | obj kvs => (path, obj kvs) :: childEntries path kvs
  | j => [(path, j)]
/-- The nodes below the child keys of a member list. -/
def childEntries (path : List String) : List (String × Json) → List (List String × Json)
  | [] => []
  | (k, v) :: rest =>
    (if isChildKey k then trieEntries (path ++ [k]) v else []) ++ childEntries path rest
end

/-- A trie node located in the inverted index: the field whose trie holds it,
the keys from `root` down to it, and the node. -/
structure IndexNode where
  field : String
  path : List String
  node : Json

/-- The term a node stands for: the keys on its path, concatenated. -/
def IndexNode.term (e : IndexNode) : String := String.join e.path

/-- The field indexes `index.index`: field name and the object holding `root`. -/
def fieldIndexes : List (String × Json) := (index.field "index").members

/-- Every trie node of every field index. -/
def indexNodes : List IndexNode :=
  (fieldIndexes.map fun fi =>
    (trieEntries [] (fi.2.field "root")).map fun pn => IndexNode.mk fi.1 pn.1 pn.2).flatten


/-- The document ids listed at a trie node: `Object.keys(node.docs)`. -/
def docIds (n : Json) : List String := (n.field "docs").keys

/-- The document frequency `node.df`. -/
def df? (n : Json) : Option ℚ := (n.field "df").toRat?

/-- The term frequency `node.docs[d].tf`. -/
def tf? (n : Json) (d : String) : Option ℚ := (((n.field "docs").field d).field "tf").toRat?

/-- Value of a digit string, most significant digit first. -/
def digitsValue (acc : Nat) : List Char → Option Nat
  | [] => some acc
  | c :: cs => if c.isDigit then digitsValue (10 * acc + (c.toNat - 48)) cs else none

/-- A property key used as an array index: a canonical decimal numeral, that
is a non-empty digit string with no leading zero other than `"0"` itself. -/
def arrayIndex? (k : String) : Option Nat :=
  match k.data with
  | [] => none
  | ['0'] => some 0
  | '0' :: _ => none
  | cs => digitsValue 0 cs

/-- The lookup `doc_urls[d]` for a document id `d`, when it yields a string. -/
def urlOf (d : String) : Option String :=
  (arrayIndex? d).bind fun i => (doc_urls.elements[i]?).bind toStr?

/-- The title `index.documentStore.docs[d].title` of a stored document. -/
def titleOf (d : String) : Option String := ((docs.field d).field "title").toStr?

/-- The strings of an array of strings; `none` if an element is not a string. -/
def stringList? : List Json → Option (List String)
  | [] => some []
  | x :: xs => (x.toStr?).bind fun s => (stringList? xs).map fun ss => s :: ss

/-- The searchable field names `index.fields`. -/
def fieldNames : Option (List String) := stringList? (index.field "fields").elements

/-- The pipeline step names `index.pipeline`. -/
def pipeline : Option (List String) := stringList? (index.field "pipeline").elements

/-- The boost `search_options.fields[f].boost` of a field. -/
def boost? (f : String) : Option ℚ :=
  (((search_options.field "fields").field f).field "boost").toRat?

/-- The node of a field trie reached from `root` by a list of keys. -/
def nodeAt? (f : String) (path : List String) : Option IndexNode :=
  indexNodes.find? fun e => e.field == f && e.path == path

/-- The node of the title trie for the term `find`. -/
def titleFind : IndexNode :=
  (nodeAt? "title" ["f", "i", "n", "d"]).get (by decide!)

/-- The part of a URL after its first `#`. -/
def urlFragment (url : String) : String :=
  String.mk ((url.data.dropWhile fun c => c != '#').drop 1)

/-- The slug of a title, in the words of the specification: the title is
lower-cased, every character that is not a letter, digit or space is removed,
and each space is replaced by `-`. -/
def specSlug (title : String) : String :=
  String.mk (((title.data.map Char.toLower).filter fun c =>
    c.isAlpha || c.isDigit || c == ' ').map fun c => if c = ' ' then '-' else c)

/-- A value held by a property of `window.search`: a JSON value, or any other
JavaScript value (a function, a DOM node), drawn from a type `α`. -/
inductive Value (α : Type) where
  | json (j : Json)
  | host (a : α)

/-- A property of an object: a data property with its value and its
`writable` attribute, or an accessor property with its setter, if it has one.
Setter functions are named by numbers. -/
inductive Slot (α : Type) where
  | data (value : Value α) (writable : Bool)
  | accessor (setter : Option Nat)

/-- An ordinary object: its own properties in order, the properties it
inherits along its prototype chain, and whether it is extensible. -/
structure JsObject (α : Type) where
  own : List (String × Slot α)
  inherited : List (String × Slot α)
  extensible : Bool

/-- The object with its own properties replaced. -/
def JsObject.withOwn {α : Type} (o : JsObject α) (own : List (String × Slot α)) :
    JsObject α := ⟨own, o.inherited, o.extensible⟩

/-- How a step ends: whether it threw, and the object as it then is. -/
structure Outcome (α : Type) where
  threw : Bool
  object : JsObject α

/-- The property bound to a key in a property list. -/
def findSlot {α : Type} (k : String) : List (String × Slot α) → Option (Slot α)
  | [] => none
  | (k1, s) :: rest => if k1 = k then some s else findSlot k rest

/-- Stores a value in the own data property `k`: an existing key keeps its
place and takes the new value, a new key is added at the end as a writable
data property. -/
def storeOwn {α : Type} (k : String) (v : Value α) :
    List (String × Slot α) → List (String × Slot α)
  | [] => [(k, Slot.data v true)]
  | (k1, s) :: rest =>
    if k1 = k then (k, Slot.data v true) :: rest else (k1, s) :: storeOwn k v rest

/-- The write `o[k] = v` as `Object.assign` performs it, throwing on failure.
An own writable data property takes the value; an own read-only data property
or an accessor without setter makes the write throw; a setter is called with
the value and the object, and `call` says what it does.  A key the object
does not own is looked up in the inherited properties: a read-only data
property or an accessor without setter makes the write throw, a setter is
called, and otherwise a new own data property is created, which throws when
the object is not extensible. -/
def setProperty {α : Type} (call : Nat → Value α → JsObject α → Outcome α)
    (o : JsObject α) (k : String) (v : Value α) : Outcome α :=
  match findSlot k o.own with
  | some (Slot.data _ true) => ⟨false, o.withOwn (storeOwn k v o.own)⟩
  | some (Slot.data _ false) => ⟨true, o⟩
  | some (Slot.accessor (some f)) => call f v o
  | some (Slot.accessor none) => ⟨true, o⟩
  | none =>
    match findSlot k o.inherited with
    | some (Slot.data _ false) => ⟨true, o⟩
    | some (Slot.accessor (some f)) => call f v o
    | some (Slot.accessor none) => ⟨true, o⟩
    | _ => if o.extensible then ⟨false, o.withOwn (storeOwn k v o.own)⟩ else ⟨true, o⟩

/-- `Object.assign(target, source)` for a source that is an object literal:
every property of the source is written to the target, in source order; the
first write that throws ends the call, and the later properties stay
unwritten. -/
def objectAssign {α : Type} (call : Nat → Value α → JsObject α → Outcome α)
    (target : JsObject α) : List (String × Json) → Outcome α
  | [] => ⟨false, target⟩
  | (k, v) :: rest =>
    if (setProperty call target k (Value.json v)).threw then
      setProperty call target k (Value.json v)
    else objectAssign call (setProperty call target k (Value.json v)).object rest

/-- The statement of `searchindex.js`, as a function of the object that
`window.search` is before it runs and of what the setters do. -/
def script {α : Type} (call : Nat → Value α → JsObject α → Outcome α)
    (windowSearch : JsObject α) : Outcome α :=
  objectAssign call windowSearch searchLiteral.members

/-- A key that `Object.assign` can write on an object without calling a
setter and without throwing: an own writable data property, or a key the
object does not own while it is extensible and inherits neither a read-only
data property nor an accessor of that name. -/
def assignable {α : Type} (o : JsObject α) (k : String) : Bool :=
  match findSlot k o.own with
  | some (Slot.data _ w) => w
  | some (Slot.accessor _) => false
  | none =>
    o.extensible &&
      match findSlot k o.inherited with
      | some (Slot.data _ w) => w
      | some (Slot.accessor _) => false
      | none => true

/-- A setter that does nothing. -/
def idleSetter {α : Type} (_ : Nat) (_ : Value α) (o : JsObject α) : Outcome α := ⟨false, o⟩

/-- A setter that stores the value it is given in the own property
`hasFocus`. -/
def focusSetter {α : Type} (_ : Nat) (v : Value α) (o : JsObject α) : Outcome α :=
  ⟨false, o.withOwn (storeOwn "hasFocus" v o.own)⟩

/-- A `window.search` with a function `hasFocus` and a writable `index`. -/
def plainSearch : JsObject Unit :=
  ⟨[("hasFocus", Slot.data (Value.host ()) true), ("index", Slot.data (Value.json null) true)],
    [], true⟩

/-- A `window.search` with a function `hasFocus` and a read-only `index`. -/
def readOnlySearch : JsObject Unit :=
  ⟨[("hasFocus", Slot.data (Value.host ()) true), ("index", Slot.data (Value.json null) false)],
    [], true⟩

/-- A `window.search` with a function `hasFocus` and an accessor `index`
whose setter is setter 0. -/
def accessorSearch : JsObject Unit :=
  ⟨[("hasFocus", Slot.data (Value.host ()) true), ("index", Slot.accessor (some 0))], [], true⟩

/-- The three searchable fields. -/
def searchableFields : List String := ["body", "breadcrumbs", "title"]


/-- The word count `index.documentStore.docInfo[d][f]` of a field of a
document. -/
def wordCount? (d f : String) : Option ℚ := ((docInfo.field d).field f).toRat?

/-- The value reached from a node by reading a list of keys one after the
other: `n[k1][k2]...`. -/
def descend (n : Json) : List String → Json
  | [] => n
  | k :: ks => descend (n.field k) ks

/-- The root `index.index[f].root` of a field trie. -/
def fieldRoot (f : String) : Json := ((index.field "index").field f).field "root"

/-- The node `index.index[f].root[k1][k2]...` of a field trie. -/
def fieldNode (f : String) (path : List String) : Json := descend (fieldRoot f) path

/-- The keys that spell a term: one key per character. -/
def termPath (t : String) : List String := t.data.map String.singleton

/-- The term frequency `index.index[f].root[c1]...[cn].docs[d].tf` that field
`f` records for document `d` under the term `c1...cn`; `none` when the field
index does not list `d` under that term. -/
def termTf (f t d : String) : Option ℚ := tf? (fieldNode f (termPath t)) d

/-- The name that stands just before `f` in a list of names. -/
def nameBefore (f : String) : List String → Option String
  | g :: h :: rest => if h = f then some g else nameBefore f (h :: rest)
  | _ => none

/-- The field listed just before `f` in `index.fields`. -/
def fieldBefore (f : String) : Option String := fieldNames.bind (nameBefore f)

/-- The squares of the `tf` values of document `d` over the terms of field
`f` that list it. -/
def tfSquares (f d : String) : List ℚ :=
  (indexNodes.filter fun e => e.field == f && decide (d ∈ docIds e.node)).map fun e =>
    ((tf? e.node d).getD 0) ^ 2

/-- The stop words, as the specification lists them. -/
def specStopWords : List String :=
  ["a", "and", "the", "to", "of", "on", "by", "for", "from", "into", "with", "or", "our",
   "your", "you", "we", "are", "that", "other", "us"]

/-- The node of the body trie for the term `chapter`. -/
def bodyChapter : IndexNode :=
  (nodeAt? "body" ["c", "h", "a", "p", "t", "e", "r"]).get (by decide!)

/-- The node of the title trie for the term `us`. -/
def titleUs : IndexNode :=
  (nodeAt? "title" ["u", "s"]).get (by decide!)

/-! ## Theorems -/

/-- The node picked by `titleFind` is one of the nodes of the index. -/
theorem titleFind_mem : titleFind ∈ indexNodes :=
  List.mem_of_find?_eq_some (Option.some_get _).symm

/-- No object of the literal has a key twice: every property read in this
file reads the one binding of its key. -/
theorem literal_keys_nodup : searchLiteral.keysNodup = true := by
  decide!

/-- The index has 1216 trie nodes over its three fields. -/
theorem indexNodes_length : indexNodes.length = 1216 := by
  decide!

/-- C1: for every field index and every trie node in it, every document id
that is a key of the node's `docs` map is also a key of
`index.documentStore.docInfo` and of `index.documentStore.docs`. -/
theorem doc_ids_in_store :
    ∀ e ∈ indexNodes, ∀ d ∈ docIds e.node, d ∈ docInfo.keys ∧ d ∈ docs.keys := by
  decide!

/-- The title node for `find` lists document `2`, which the store holds. -/
theorem doc_ids_in_store_witness :
    "2" ∈ docIds titleFind.node ∧ "2" ∈ docInfo.keys ∧ "2" ∈ docs.keys :=
  ⟨by decide!, doc_ids_in_store titleFind titleFind_mem "2" (by decide!)⟩

/-- C2: for every field index and every trie node in it, every document id of
the node's `docs` map is the decimal numeral of a number `i` below the length
of `doc_urls`, and the lookup `doc_urls[i]` yields a URL string. -/
theorem doc_ids_have_url :
    ∀ e ∈ indexNodes, ∀ d ∈ docIds e.node,
      ∃ i ∈ arrayIndex? d, i < doc_urls.elements.length ∧ (urlOf d).isSome := by
  decide!

/-- Document `2`, listed at the title node for `find`, has position 2 among
the seven URLs. -/
theorem doc_ids_have_url_witness :
    "2" ∈ docIds titleFind.node ∧
      ∃ i ∈ arrayIndex? "2", i < doc_urls.elements.length ∧ (urlOf "2").isSome :=
  ⟨by decide!, doc_ids_have_url titleFind titleFind_mem "2" (by decide!)⟩

/-- C3: every `tf` value stored in the body, breadcrumbs and title indexes is
a number and, read as an exact decimal, is non-negative. -/
theorem tf_nonneg :
    ∀ e ∈ indexNodes, ∀ d ∈ docIds e.node, ∃ q ∈ tf? e.node d, 0 ≤ q := by
  decide!

/-- The `tf` of document `2` at the title node for `find` is non-negative. -/
theorem tf_nonneg_witness :
    "2" ∈ docIds titleFind.node ∧ ∃ q ∈ tf? titleFind.node "2", 0 ≤ q :=
  ⟨by decide!, tf_nonneg titleFind titleFind_mem "2" (by decide!)⟩

/-- C4: `doc_urls` has exactly 7 entries, `documentStore.length` is 7, and the
keys of `documentStore.docInfo` are exactly the decimal numerals of the
positions 0..6 of `doc_urls` (each key once, and each key read as an array
index gives its position). -/
theorem doc_urls_aligned_with_ids :
    doc_urls.elements.length = 7 ∧
    (documentStore.field "length").toRat? = some 7 ∧
    docInfo.keys.Perm ((List.range doc_urls.elements.length).map Nat.repr) ∧
    (docInfo.keys.map arrayIndex?).Perm
      ((List.range doc_urls.elements.length).map some) := by
  decide!

/-- C5: the object literal has exactly the four top-level keys `doc_urls`,
`index`, `results_options` and `search_options`; its `index` carries
`documentStore`, `index`, `pipeline`, `lang`, `ref` and `version`;
`results_options` carries `limit_results` and `teaser_word_count`;
`search_options` carries `bool` and `fields`, and each entry of `fields`
carries a `boost`. -/
theorem literal_shape :
    searchLiteral.keys = ["doc_urls", "index", "results_options", "search_options"] ∧
    ("documentStore" ∈ (searchLiteral.field "index").keys ∧
      "index" ∈ (searchLiteral.field "index").keys ∧
      "pipeline" ∈ (searchLiteral.field "index").keys ∧
      "lang" ∈ (searchLiteral.field "index").keys ∧
      "ref" ∈ (searchLiteral.field "index").keys ∧
      "version" ∈ (searchLiteral.field "index").keys) ∧
    ("limit_results" ∈ (searchLiteral.field "results_options").keys ∧
      "teaser_word_count" ∈ (searchLiteral.field "results_options").keys) ∧
    ("bool" ∈ (searchLiteral.field "search_options").keys ∧
      "fields" ∈ (searchLiteral.field "search_options").keys ∧
      ((searchLiteral.field "search_options").field "fields").keys.Perm searchableFields ∧
      "boost" ∈ (((searchLiteral.field "search_options").field "fields").field "body").keys ∧
      "boost" ∈
        (((searchLiteral.field "search_options").field "fields").field "breadcrumbs").keys ∧
      "boost" ∈ (((searchLiteral.field "search_options").field "fields").field "title").keys) := by
  decide!

/-- C6: the names in `index.fields`, the keys of `index.index`, the keys of
`search_options.fields` and the word-count keys of every `docInfo` entry are
all exactly body, breadcrumbs and title, and the boost of each of the three
fields is a positive integer. -/
theorem fields_agree :
    (∃ names ∈ fieldNames, names.Perm searchableFields) ∧
    (index.field "index").keys.Perm searchableFields ∧
    (search_options.field "fields").keys.Perm searchableFields ∧
    (∀ d ∈ docInfo.keys, (docInfo.field d).keys.Perm searchableFields) ∧
    (∃ q ∈ boost? "body", 0 < q ∧ q.isInt = true) ∧
    (∃ q ∈ boost? "breadcrumbs", 0 < q ∧ q.isInt = true) ∧
    (∃ q ∈ boost? "title", 0 < q ∧ q.isInt = true) := by
  decide!

/-- C7: at every node of every field trie, `df` equals the number of entries
of the node's `docs` map, so `df` is 0 exactly when the `docs` map is empty. -/
theorem df_counts_docs :
    ∀ e ∈ indexNodes,
      df? e.node = some ((docIds e.node).length : ℚ) ∧
      (df? e.node = some 0 ↔ docIds e.node = []) := by
  decide!

/-- At the title node for `find`, `df` is 1 and one document is listed. -/
theorem df_counts_docs_witness :
    docIds titleFind.node = ["2"] ∧
      df? titleFind.node = some ((docIds titleFind.node).length : ℚ) ∧
      (df? titleFind.node = some 0 ↔ docIds titleFind.node = []) :=
  ⟨by decide!, df_counts_docs titleFind titleFind_mem⟩

/-- C8: in every field trie, every key of a node other than `df` and `docs`
is a string of exactly one character, and the term spelled by the path to a
node has as many characters as the node is deep below `root`. -/
theorem child_keys_single_char :
    ∀ e ∈ indexNodes,
      (∀ k ∈ e.node.keys, k ≠ "df" → k ≠ "docs" → k.length = 1) ∧
      (∀ k ∈ e.path, k.length = 1) ∧
      e.term.length = e.path.length := by
  decide!

/-- The title node for `find` lies four keys below `root` and spells a term
of four characters. -/
theorem child_keys_single_char_witness :
    (titleFind.term = "find" ∧ titleFind.path.length = 4) ∧
      (∀ k ∈ titleFind.node.keys, k ≠ "df" → k ≠ "docs" → k.length = 1) ∧
      (∀ k ∈ titleFind.path, k.length = 1) ∧
      titleFind.term.length = titleFind.path.length :=
  ⟨by decide!, child_keys_single_char titleFind titleFind_mem⟩

/-- C9: `index.pipeline` is exactly the list trimmer, stopWordFilter, stemmer,
in that order. -/
theorem pipeline_steps : pipeline = some ["trimmer", "stopWordFilter", "stemmer"] := by
  decide!

/-- C10: for every document id, the fragment after `#` of its entry in
`doc_urls` equals the slug of the stored document's title; the titles consist
of ASCII characters only, so lower-casing and the letter test are the ASCII
ones. -/
theorem url_fragment_is_title_slug :
    ∀ d ∈ docs.keys, ∃ u ∈ urlOf d, ∃ t ∈ titleOf d,
      urlFragment u = specSlug t ∧ ∀ c ∈ t.data, c.toNat < 128 := by
  decide!

/-- Document `2`: the fragment `what-youll-find` is the slug of its title. -/
theorem url_fragment_is_title_slug_witness :
    (urlOf "2" = some "introduction.html#what-youll-find" ∧
      titleOf "2" = some "What You'll Find") ∧
      ∃ u ∈ urlOf "2", ∃ t ∈ titleOf "2",
        urlFragment u = specSlug t ∧ ∀ c ∈ t.data, c.toNat < 128 :=
  ⟨by decide!, url_fragment_is_title_slug "2" (by decide!)⟩

/-- Reading the key just stored gives a writable data property with the
stored value. -/
theorem findSlot_storeOwn_self {α : Type} (k : String) (v : Value α)
    (l : List (String × Slot α)) : findSlot k (storeOwn k v l) = some (Slot.data v true) := by
  induction l with
  | nil => simp [storeOwn, findSlot]
  | cons kv rest ih =>
    obtain ⟨k1, s⟩ := kv
    by_cases h : k1 = k
    · simp [storeOwn, findSlot, h]
    · simp [storeOwn, findSlot, h, ih]

/-- Storing under a key leaves the property of every other key as it was. -/
theorem findSlot_storeOwn_other {α : Type} (k k2 : String) (v : Value α)
    (l : List (String × Slot α)) (h : k2 ≠ k) :
    findSlot k2 (storeOwn k v l) = findSlot k2 l := by
  induction l with
  | nil => simp [storeOwn, findSlot, Ne.symm h]
  | cons kv rest ih =>
    obtain ⟨k1, s⟩ := kv
    by_cases h1 : k1 = k
    · subst h1
      simp [storeOwn, findSlot, Ne.symm h]
    · by_cases h2 : k1 = k2
      · subst h2
        simp [storeOwn, findSlot, h1]
      · simp [storeOwn, findSlot, h1, h2, ih]

/-- The write of an assignable key does not throw and stores the value. -/
theorem setProperty_assignable {α : Type} (call : Nat → Value α → JsObject α → Outcome α)
    (o : JsObject α) (k : String) (v : Value α) (h : assignable o k = true) :
    setProperty call o k v = ⟨false, o.withOwn (storeOwn k v o.own)⟩ := by
  unfold assignable at h
  unfold setProperty
  split at h
  · next w hw => subst h; simp [hw]
  · next hw => simp at h
  · next hw =>
    simp only [Bool.and_eq_true] at h
    obtain ⟨he, hi⟩ := h
    simp only [hw]
    split at hi
    · next w hw2 => subst hi; simp [hw2, he]
    · simp at hi
    · next hw2 => simp [hw2, he]

/-- A store under one key does not change whether another key is
assignable. -/
theorem assignable_storeOwn {α : Type} (o : JsObject α) (k k2 : String) (v : Value α)
    (h : k2 ≠ k) : assignable (o.withOwn (storeOwn k v o.own)) k2 = assignable o k2 := by
  simp [assignable, JsObject.withOwn, findSlot_storeOwn_other k k2 v o.own h]

/-- One step of `Object.assign` on an assignable key. -/
theorem objectAssign_cons_assignable {α : Type}
    (call : Nat → Value α → JsObject α → Outcome α) (o : JsObject α) (k : String) (v : Json)
    (rest : List (String × Json)) (h : assignable o k = true) :
    objectAssign call o ((k, v) :: rest) =
      objectAssign call (o.withOwn (storeOwn k (Value.json v) o.own)) rest := by
  simp [objectAssign, setProperty_assignable call o k (Value.json v) h]

/-- When the four keys of the literal are assignable, the statement stores
them one after the other and does not throw. -/
theorem script_assignable {α : Type} (call : Nat → Value α → JsObject α → Outcome α)
    (ws : JsObject α) (h : ∀ k ∈ searchLiteral.keys, assignable ws k = true) :
    script call ws =
      ⟨false, ws.withOwn
        (storeOwn "search_options" (Value.json search_options)
          (storeOwn "results_options" (Value.json results_options)
            (storeOwn "index" (Value.json index)
              (storeOwn "doc_urls" (Value.json doc_urls) ws.own))))⟩ := by
  have h1 : assignable ws "doc_urls" = true := h _ (by decide)
  have h2 : assignable ws "index" = true := h _ (by decide)
  have h3 : assignable ws "results_options" = true := h _ (by decide)
  have h4 : assignable ws "search_options" = true := h _ (by decide)
  show objectAssign call ws [("doc_urls", doc_urls), ("index", index),
    ("results_options", results_options), ("search_options", search_options)] = _
  rw [objectAssign_cons_assignable call ws _ _ _ h1]
  rw [objectAssign_cons_assignable _ _ "index" _ _
    (by rw [assignable_storeOwn _ _ _ _ (by decide)]; exact h2)]
  rw [objectAssign_cons_assignable _ _ "results_options" _ _
    (by rw [assignable_storeOwn _ _ _ _ (by decide), assignable_storeOwn _ _ _ _ (by decide)]
        exact h3)]
  rw [objectAssign_cons_assignable _ _ "search_options" _ _
    (by rw [assignable_storeOwn _ _ _ _ (by decide), assignable_storeOwn _ _ _ _ (by decide),
          assignable_storeOwn _ _ _ _ (by decide)]
        exact h4)]
  rfl

/-- A key that `lookup` finds is bound to the found value in the list. -/
theorem lookup_mem (k : String) (v : Json) (l : List (String × Json))
    (h : lookup k l = some v) : (k, v) ∈ l := by
  induction l with
  | nil => simp [lookup] at h
  | cons kv rest ih =>
    obtain ⟨k1, v1⟩ := kv
    by_cases h1 : k1 = k
    · subst h1
      simp [lookup] at h
      simp [h]
    · simp [lookup, h1] at h
      exact List.mem_cons_of_mem _ (ih h)

/-- A property whose reading is not `null` is bound in the member list. -/
theorem field_ne_null (j : Json) (k : String) (h : j.field k ≠ null) :
    ∃ v, lookup k j.members = some v ∧ j.field k = v := by
  unfold Json.field Json.get at *
  cases hl : lookup k j.members with
  | none => rw [hl] at h; exact absurd rfl h
  | some v => exact ⟨v, rfl, rfl⟩

/-- Descending from `null` stays at `null`. -/
theorem descend_null (path : List String) : descend null path = null := by
  induction path with
  | nil => rfl
  | cons k ks ih =>
    show descend (null.field k) ks = null
    exact ih

/-- The nodes below a child key of an object are among the nodes below the
object. -/
theorem trieEntries_sub_childEntries (pre : List String) (k : String) (v : Json)
    (hk : isChildKey k = true) (x : List String × Json) :
    ∀ kvs : List (String × Json), lookup k kvs = some v →
      x ∈ trieEntries (pre ++ [k]) v → x ∈ childEntries pre kvs := by
  intro kvs
  induction kvs with
  | nil => intro h; simp [lookup] at h
  | cons kv rest ih =>
    obtain ⟨k1, v1⟩ := kv
    intro h hx
    rw [childEntries]
    by_cases h1 : k1 = k
    · subst h1
      simp [lookup] at h
      subst h
      simp [hk, hx]
    · simp [lookup, h1] at h
      exact List.mem_append_right _ (ih h hx)

/-- Every node that a descent from a trie root reaches is among the entries
of the trie, under the path of the descent. -/
theorem descend_mem_trieEntries (path : List String) :
    ∀ (pre : List String) (j : Json), (∀ k ∈ path, isChildKey k = true) →
      descend j path ≠ null → (pre ++ path, descend j path) ∈ trieEntries pre j := by
  induction path with
  | nil =>
    intro pre j _ _
    cases j <;> simp [descend, trieEntries]
  | cons k ks ih =>
    intro pre j hp hne
    have hne2 : descend (j.field k) ks ≠ null := hne
    have hf : j.field k ≠ null := by
      intro h0
      rw [h0, descend_null] at hne2
      exact hne2 rfl
    obtain ⟨v, hv, hfv⟩ := field_ne_null j k hf
    cases j with
    | obj kvs =>
      have hmem := ih (pre ++ [k]) v (fun k2 h2 => hp k2 (List.mem_cons_of_mem _ h2))
        (by rw [← hfv]; exact hne2)
      have hsub := trieEntries_sub_childEntries pre k v (hp k (List.mem_cons_self _ _)) _ kvs hv hmem
      rw [trieEntries]
      show (pre ++ k :: ks, descend ((obj kvs).field k) ks) ∈ _
      rw [hfv]
      have e : pre ++ k :: ks = pre ++ [k] ++ ks := by simp
      rw [e]
      exact List.mem_cons_of_mem _ hsub
    | null => simp [Json.members, lookup] at hv
    | bool b => simp [Json.members, lookup] at hv
    | num m s => simp [Json.members, lookup] at hv
    | str s => simp [Json.members, lookup] at hv
    | arr xs => simp [Json.members, lookup] at hv

/-- A node of a field trie that a descent from its root reaches is one of the
nodes of the index. -/
theorem fieldNode_mem_indexNodes (f : String) (path : List String)
    (hp : ∀ k ∈ path, isChildKey k = true) (hne : fieldNode f path ≠ null) :
    IndexNode.mk f path (fieldNode f path) ∈ indexNodes := by
  unfold fieldNode fieldRoot at *
  have h1 : (index.field "index").field f ≠ null := by
    intro h0
    rw [h0] at hne
    exact hne (descend_null _)
  obtain ⟨fi, hfi, hfe⟩ := field_ne_null _ _ h1
  have hm := lookup_mem _ _ _ hfi
  have hd := descend_mem_trieEntries path [] (fi.field "root") hp (by rw [← hfe]; exact hne)
  unfold indexNodes
  rw [List.mem_flatten]
  refine ⟨_, List.mem_map.2 ⟨(f, fi), hm, rfl⟩, ?_⟩
  rw [List.mem_map]
  refine ⟨_, hd, ?_⟩
  simp [hfe]

/-- A document whose `tf` can be read at a value is a key of the value's
`docs` map, and the value is not `null`. -/
theorem tf?_some (n : Json) (d : String) (x : ℚ) (h : tf? n d = some x) :
    n ≠ null ∧ d ∈ docIds n := by
  constructor
  · intro h0
    rw [h0] at h
    simp [tf?, Json.field, Json.get, Json.members, lookup, toRat?] at h
  · have h1 : (n.field "docs").field d ≠ null := by
      intro h0
      unfold tf? at h
      rw [h0] at h
      simp [Json.field, Json.get, Json.members, lookup, toRat?] at h
    obtain ⟨v, hv, _⟩ := field_ne_null _ _ h1
    have hm := lookup_mem _ _ _ hv
    exact List.mem_map.2 ⟨(d, v), hm, rfl⟩

/-- Whatever a lookup by field and path lists is listed at a node of the
index: the enumeration `indexNodes` misses nothing that can be read from the
tries. -/
theorem listed_mem_indexNodes (f : String) (path : List String) (d : String) (x : ℚ)
    (hp : ∀ k ∈ path, isChildKey k = true) (h : tf? (fieldNode f path) d = some x) :
    IndexNode.mk f path (fieldNode f path) ∈ indexNodes ∧ d ∈ docIds (fieldNode f path) :=
  ⟨fieldNode_mem_indexNodes f path hp (tf?_some _ d x h).1, (tf?_some _ d x h).2⟩

/-- A node picked by `nodeAt?` is one of the nodes of the index. -/
theorem nodeAt?_get_mem (f : String) (path : List String)
    (h : (nodeAt? f path).isSome = true) : (nodeAt? f path).get h ∈ indexNodes :=
  List.mem_of_find?_eq_some (Option.some_get h).symm

/-- The key of a single character is a child key. -/
theorem isChildKey_termPath (t : String) : ∀ k ∈ termPath t, isChildKey k = true := by
  intro k hk
  obtain ⟨c, _, rfl⟩ := List.mem_map.1 hk
  have h1 : String.singleton c ≠ "df" := fun h => by
    have := congrArg String.length h
    rw [String.length_singleton] at this
    exact absurd this (by decide)
  have h2 : String.singleton c ≠ "docs" := fun h => by
    have := congrArg String.length h
    rw [String.length_singleton] at this
    exact absurd this (by decide)
  simp [isChildKey, h1, h2]

/-- The cumulation of the field indexes, node by node. -/
theorem cumulative_nodes :
    ∀ e ∈ indexNodes, ∀ d ∈ docIds e.node,
      (e.field = "title" →
        ∃ x ∈ tf? e.node d, ∃ y ∈ tf? (fieldNode "body" e.path) d, x ≤ y) ∧
      (e.field = "body" →
        ∃ y ∈ tf? e.node d, ∃ z ∈ tf? (fieldNode "breadcrumbs" e.path) d, y ≤ z) := by
  decide!

/-- Every `tf` is at least 1 and its square is within `10⁻⁹` of one of the
whole numbers 1..11. -/
theorem tf_square_near_small_nat :
    ∀ e ∈ indexNodes, ∀ d ∈ docIds e.node,
      ∃ q ∈ tf? e.node d, 1 ≤ q ∧
        ∃ n ∈ List.range 12, 1 ≤ n ∧ |q * q - (n : ℚ)| < 1 / 10 ^ 9 := by
  decide!

/-- C11, as stated, fails: document `4` has body word count 0, and the body
index lists it under the term `chapter`; so the statement over all documents
and fields is false. -/
theorem zero_count_listed_counterexample :
    (wordCount? "4" "body" = some 0 ∧ bodyChapter ∈ indexNodes ∧
      bodyChapter.field = "body" ∧ bodyChapter.term = "chapter" ∧
      "4" ∈ docIds bodyChapter.node) ∧
    ¬ ∀ d ∈ docInfo.keys, ∀ f ∈ searchableFields, wordCount? d f = some 0 →
        ∀ e ∈ indexNodes, e.field = f → d ∉ docIds e.node :=
  ⟨⟨by decide!, nodeAt?_get_mem _ _ _, by decide!, by decide!, by decide!⟩, by decide!⟩

/-- C11, amended: if the word count `docInfo[d][f]` is 0, then every term of
field `f` that lists `d` is carried over from the field just before `f` in
`index.fields`, which lists `d` under the same term with the same `tf`; the
first field, title, has no field before it and lists no such `d`. -/
theorem zero_count_only_carried_over :
    ∀ e ∈ indexNodes, ∀ d ∈ docIds e.node, wordCount? d e.field = some 0 →
      ∃ g ∈ fieldBefore e.field, ∃ x ∈ tf? e.node d,
        tf? (fieldNode g e.path) d = some x := by
  decide!

/-- Document `4` under `chapter` in the body index: carried over from the
title index, with the same `tf`. -/
theorem zero_count_only_carried_over_witness :
    (fieldBefore "body" = some "title" ∧ fieldBefore "title" = none) ∧
      ∃ g ∈ fieldBefore bodyChapter.field, ∃ x ∈ tf? bodyChapter.node "4",
        tf? (fieldNode g bodyChapter.path) "4" = some x :=
  ⟨by decide!,
    zero_count_only_carried_over bodyChapter (nodeAt?_get_mem _ _ _) "4" (by decide!)
      (by decide!)⟩

/-- C12: for every document `d`, the title word count `docInfo[d].title`
equals the sum, over the terms of the title index that list `d`, of the
square of the `tf` of `d` for that term. -/
theorem title_count_is_sum_of_squares :
    ∀ d ∈ docInfo.keys, wordCount? d "title" = some (tfSquares "title" d).sum := by
  decide!

/-- Document `0`: six title terms list it, and its title word count is the
sum of their squared `tf`. -/
theorem title_count_is_sum_of_squares_witness :
    ((tfSquares "title" "0").length = 6 ∧ wordCount? "0" "title" = some 6) ∧
      wordCount? "0" "title" = some (tfSquares "title" "0").sum :=
  ⟨by decide!, title_count_is_sum_of_squares "0" (by decide!)⟩

/-- C13, as stated, fails: the title index stores the term `us`, which is one
of the listed stop words, with `df` 1. -/
theorem stop_word_stored_counterexample :
    titleUs ∈ indexNodes ∧ titleUs.field = "title" ∧ titleUs.term = "us" ∧
      df? titleUs.node = some 1 ∧ "us" ∈ specStopWords :=
  ⟨nodeAt?_get_mem _ _ _, by decide!, by decide!, by decide!, by decide!⟩

/-- C13, amended: a listed stop word is a term stored in a field index (the
term of a node with `df > 0`) exactly when it is `on`, `other` or `us`; these
three are stored, and none of the other seventeen stop words is. -/
theorem stored_stop_words :
    ∀ w ∈ specStopWords,
      (∃ e ∈ indexNodes, e.term = w ∧ ∃ q ∈ df? e.node, 0 < q) ↔
        (w = "on" ∨ w = "other" ∨ w = "us") := by
  decide!

/-- The stop words `on` and `other` are stored terms, and the stop word `the`
is not. -/
theorem stored_stop_words_witness :
    ("on" ∈ specStopWords ∧ "other" ∈ specStopWords ∧ "the" ∈ specStopWords) ∧
      (∃ e ∈ indexNodes, e.term = "on" ∧ ∃ q ∈ df? e.node, 0 < q) ∧
      (∃ e ∈ indexNodes, e.term = "other" ∧ ∃ q ∈ df? e.node, 0 < q) ∧
      ¬ ∃ e ∈ indexNodes, e.term = "the" ∧ ∃ q ∈ df? e.node, 0 < q :=
  ⟨by decide!, (stored_stop_words "on" (by decide!)).2 (Or.inl rfl),
    (stored_stop_words "other" (by decide!)).2 (Or.inr (Or.inl rfl)),
    fun h => absurd ((stored_stop_words "the" (by decide!)).1 h) (by decide)⟩

/-- C14, as stated, fails.  On a `window.search` whose `index` is read-only
the statement throws after it has written `doc_urls`: `index` keeps its old
value and `results_options` and `search_options` are never written.  On a
`window.search` whose `index` is an accessor the setter runs, here changing
the other property `hasFocus`, and `index` is not set to the literal. -/
theorem script_frame_counterexample :
    ((script idleSetter readOnlySearch).threw = true ∧
      findSlot "doc_urls" (script idleSetter readOnlySearch).object.own =
        some (Slot.data (Value.json doc_urls) true) ∧
      findSlot "index" (script idleSetter readOnlySearch).object.own =
        some (Slot.data (Value.json null) false) ∧
      findSlot "results_options" (script idleSetter readOnlySearch).object.own = none ∧
      findSlot "search_options" (script idleSetter readOnlySearch).object.own = none) ∧
    ((script focusSetter accessorSearch).threw = false ∧
      findSlot "index" (script focusSetter accessorSearch).object.own =
        some (Slot.accessor (some 0)) ∧
      findSlot "hasFocus" accessorSearch.own = some (Slot.data (Value.host ()) true) ∧
      findSlot "hasFocus" (script focusSetter accessorSearch).object.own =
        some (Slot.data (Value.json index) true)) :=
  ⟨⟨rfl, rfl, rfl, rfl, rfl⟩, rfl, rfl, rfl, rfl⟩

/-- C14, amended: on an ordinary `window.search` on which each of `doc_urls`,
`index`, `results_options` and `search_options` is assignable (an own
writable data property, or absent while the object is extensible and
inherits neither a read-only data property nor an accessor of that name),
the statement does not throw, sets these four own properties to the values
of the literal, and leaves every other own property, the inherited
properties and the extensibility unchanged, whatever the setters do. -/
theorem script_frame {α : Type} (call : Nat → Value α → JsObject α → Outcome α)
    (ws : JsObject α) (h : ∀ k ∈ searchLiteral.keys, assignable ws k = true) :
    (script call ws).threw = false ∧
    (findSlot "doc_urls" (script call ws).object.own =
        some (Slot.data (Value.json doc_urls) true) ∧
      findSlot "index" (script call ws).object.own =
        some (Slot.data (Value.json index) true) ∧
      findSlot "results_options" (script call ws).object.own =
        some (Slot.data (Value.json results_options) true) ∧
      findSlot "search_options" (script call ws).object.own =
        some (Slot.data (Value.json search_options) true)) ∧
    (∀ k, k ∉ searchLiteral.keys →
      findSlot k (script call ws).object.own = findSlot k ws.own) ∧
    (script call ws).object.inherited = ws.inherited ∧
    (script call ws).object.extensible = ws.extensible := by
  rw [script_assignable call ws h]
  dsimp only [JsObject.withOwn]
  refine ⟨rfl, ⟨?_, ?_, ?_, ?_⟩, ?_, rfl, rfl⟩
  · rw [findSlot_storeOwn_other _ _ _ _ (by decide), findSlot_storeOwn_other _ _ _ _ (by decide),
      findSlot_storeOwn_other _ _ _ _ (by decide), findSlot_storeOwn_self]
  · rw [findSlot_storeOwn_other _ _ _ _ (by decide), findSlot_storeOwn_other _ _ _ _ (by decide),
      findSlot_storeOwn_self]
  · rw [findSlot_storeOwn_other _ _ _ _ (by decide), findSlot_storeOwn_self]
  · rw [findSlot_storeOwn_self]
  · intro k hk
    have hk2 : k ∉ ["doc_urls", "index", "results_options", "search_options"] := hk
    simp only [List.mem_cons, List.mem_singleton, List.not_mem_nil, or_false, not_or] at hk2
    obtain ⟨h1, h2, h3, h4⟩ := hk2
    rw [findSlot_storeOwn_other _ _ _ _ h4, findSlot_storeOwn_other _ _ _ _ h3,
      findSlot_storeOwn_other _ _ _ _ h2, findSlot_storeOwn_other _ _ _ _ h1]

/-- On a `window.search` with a function `hasFocus` and a writable `index`,
the statement replaces `index` and keeps `hasFocus`, even with a setter
around that would overwrite `hasFocus` if it were called. -/
theorem script_frame_witness :
    (∀ k ∈ searchLiteral.keys, assignable plainSearch k = true) ∧
    (script focusSetter plainSearch).threw = false ∧
    findSlot "index" (script focusSetter plainSearch).object.own =
      some (Slot.data (Value.json index) true) ∧
    findSlot "hasFocus" (script focusSetter plainSearch).object.own =
      some (Slot.data (Value.host ()) true) :=
  ⟨by decide, (script_frame focusSetter plainSearch (by decide)).1,
    (script_frame focusSetter plainSearch (by decide)).2.1.2.1,
    (script_frame focusSetter plainSearch (by decide)).2.2.1 "hasFocus" (by decide)⟩

/-- C15: `docInfo` and `docs` have the same keys, `documentStore.length` is
the number of those keys, and for every key `k` the field of the stored
document named by `index.ref`, which is `id`, equals `k`. -/
theorem document_store_consistent :
    docInfo.keys = docs.keys ∧ docs.keys.Nodup ∧
    (documentStore.field "length").toRat? = some (docs.keys.length : ℚ) ∧
    ∃ r ∈ (index.field "ref").toStr?, r = "id" ∧
      ∀ k ∈ docs.keys, ((docs.field k).field r).toStr? = some k := by
  decide!

/-- C16: for every term `t` and document `d`, if the title index lists `d`
under `t` with tf `x` then the body index lists `d` under `t` with some tf
`y ≥ x`, and if the body index lists `d` under `t` with tf `x` then the
breadcrumbs index lists `d` under `t` with some tf `z ≥ x`. -/
theorem fields_cumulative (t d : String) (x : ℚ) :
    (termTf "title" t d = some x → ∃ y, termTf "body" t d = some y ∧ x ≤ y) ∧
    (termTf "body" t d = some x → ∃ z, termTf "breadcrumbs" t d = some z ∧ x ≤ z) := by
  constructor
  · intro h
    obtain ⟨hmem, hd⟩ := listed_mem_indexNodes "title" (termPath t) d x (isChildKey_termPath t) h
    obtain ⟨x1, hx1, y, hy, hle⟩ := (cumulative_nodes _ hmem d hd).1 rfl
    have hx : x1 = x := Option.some.inj (hx1.symm.trans h)
    exact ⟨y, hy, hx ▸ hle⟩
  · intro h
    obtain ⟨hmem, hd⟩ := listed_mem_indexNodes "body" (termPath t) d x (isChildKey_termPath t) h
    obtain ⟨x1, hx1, z, hz, hle⟩ := (cumulative_nodes _ hmem d hd).2 rfl
    have hx : x1 = x := Option.some.inj (hx1.symm.trans h)
    exact ⟨z, hz, hx ▸ hle⟩

/-- The term `chapter` and document `4`: listed by the title index with tf 1,
hence by the body index, hence by the breadcrumbs index. -/
theorem fields_cumulative_witness :
    (termTf "title" "chapter" "4" = some 1 ∧ termTf "body" "chapter" "4" = some 1) ∧
      (∃ y, termTf "body" "chapter" "4" = some y ∧ 1 ≤ y) ∧
      ∃ z, termTf "breadcrumbs" "chapter" "4" = some z ∧ 1 ≤ z :=
  ⟨by decide!, (fields_cumulative "chapter" "4" 1).1 (by decide!),
    (fields_cumulative "chapter" "4" 1).2 (by decide!)⟩

/-- C17: every node of a field trie that has no child key, only `df` and
`docs`, has `df ≥ 1` and a non-empty `docs` map. -/
theorem leaves_are_terms :
    ∀ e ∈ indexNodes, (∀ k ∈ e.node.keys, k = "df" ∨ k = "docs") →
      (∃ q ∈ df? e.node, 1 ≤ q) ∧ docIds e.node ≠ [] := by
  decide!

/-- The title node for `find` is a leaf with `df` 1. -/
theorem leaves_are_terms_witness :
    titleFind.node.keys = ["df", "docs"] ∧
      (∃ q ∈ df? titleFind.node, 1 ≤ q) ∧ docIds titleFind.node ≠ [] :=
  ⟨by decide!, leaves_are_terms titleFind titleFind_mem (by decide!)⟩

/-- C18: every `tf` value in every field index, read as an exact decimal, is
at least 1, and there is a whole number `n ≥ 1` with `|tf * tf - n| < 10⁻⁹`. -/
theorem tf_is_sqrt_of_count :
    ∀ e ∈ indexNodes, ∀ d ∈ docIds e.node,
      ∃ q ∈ tf? e.node d, 1 ≤ q ∧ ∃ n : ℕ, 1 ≤ n ∧ |q * q - (n : ℚ)| < 1 / 10 ^ 9 := by
  intro e he d hd
  obtain ⟨q, hq, h1, n, _, hn, hlt⟩ := tf_square_near_small_nat e he d hd
  exact ⟨q, hq, h1, n, hn, hlt⟩

/-- The `tf` of document `4` under `chapter` in the breadcrumbs index is the
decimal `1.7320508075688772`, whose square is within `10⁻⁹` of 3. -/
theorem tf_is_sqrt_of_count_witness :
    (tf? (fieldNode "breadcrumbs" (termPath "chapter")) "4" =
        some (17320508075688772 / 10 ^ 16)) ∧
      ∃ q ∈ tf? (fieldNode "breadcrumbs" (termPath "chapter")) "4",
        1 ≤ q ∧ ∃ n : ℕ, 1 ≤ n ∧ |q * q - (n : ℚ)| < 1 / 10 ^ 9 :=
  ⟨by decide!,
    tf_is_sqrt_of_count _
      (listed_mem_indexNodes "breadcrumbs" (termPath "chapter") "4"
        (17320508075688772 / 10 ^ 16) (isChildKey_termPath "chapter") (by decide!)).1
      "4" (by decide!)⟩

end SearchIndex
